import Mathlib

/-!
Verification development for the agritectum-roof-designer repository.

The development shallowly embeds the computational core of the repository:
  * the seeded random number generator (src/lib/rng.ts),
  * the zone placement and KPI metrics engine (script.js),
  * the layout optimizer (script.js),
  * the component cost model and bill of materials (src/lib/roof/geometry.ts
    cost section, src/lib/materials/industrial-materials.ts),
  * the procedural roof geometry generator (src/lib/roof/geometry.ts).

JavaScript numbers are modelled as exact rationals where the source performs
only field arithmetic, and as real numbers where the source uses trigonometry
and square roots (the geometry generator).  Code paths that would throw a
TypeError in JavaScript (property access on undefined after a failed table
lookup) are modelled with Option, none standing for the thrown error.
-/

/-! ### Seeded RNG (src/lib/rng.ts, class SeededRNG)

JavaScript 32-bit signed integer wrapping (the `hash & hash` and `<< 5`
coercions) is modelled by `toInt32`.  String seeds are hashed code unit by
code unit; `Char.toNat` matches `charCodeAt` on the basic multilingual plane.
-/

def toInt32 (n : ℤ) : ℤ := (n + 2 ^ 31) % 2 ^ 32 - 2 ^ 31

/-- One step of the string hash: `hash = ((hash << 5) - hash) + char` followed
by the `hash = hash & hash` int32 coercion. -/
def hashStep (h : ℤ) (c : ℕ) : ℤ := toInt32 (toInt32 (h * 32) - h + c)

def hashString (s : String) : ℤ := s.data.foldl (fun h c => hashStep h c.toNat) 0

/-- `hashSeed`: numeric seeds are `Math.abs(seed) % 2147483647`; string seeds
are hashed then treated the same way. -/
def hashSeed (seed : ℤ ⊕ String) : ℤ :=
  match seed with
  | Sum.inl n => |n| % 2147483647
  | Sum.inr s => |hashString s| % 2147483647

structure SeededRNG where
  seed : ℤ
  current : ℤ
deriving DecidableEq

namespace SeededRNG

def create (seed : ℤ ⊕ String) : SeededRNG :=
  let h := hashSeed seed
  ⟨h, h⟩

/-- `next()`: linear congruential generator step; returns the value in [0,1)
together with the advanced generator. -/
def next (r : SeededRNG) : ℚ × SeededRNG :=
  let cur := (r.current * 1664525 + 1013904223) % 2147483647
  ((cur : ℚ) / 2147483647, ⟨r.seed, cur⟩)

/-- `reset()`: restore the initial hashed seed. -/
def reset (r : SeededRNG) : SeededRNG := ⟨r.seed, r.seed⟩

/-- The generator after `k` calls to `next()`. -/
def advance (r : SeededRNG) : ℕ → SeededRNG
  | 0 => r
  | k + 1 => (advance r k).next.2

/-- The value produced by the `(n+1)`-th call to `next()`. -/
def output (r : SeededRNG) (n : ℕ) : ℚ := (r.advance n).next.1

end SeededRNG

/-! ### Zone placement and KPI metrics engine (script.js)

`zones` in the script is a list of plain objects holding `type`, `area`,
`efficiency`, `cost`, `maintenance` and a `position` object.  Positions are
read and written only through each zone's own `position` object; since the
optimizer copies zones with the object spread (which shares the `position`
reference), positions are modelled as a separate list `store` parallel to the
zone list, one mutable cell per zone.  The metrics computation reads no
positions, so `Zone` carries the remaining fields only. -/

structure Climate where
  solar : ℚ
  rainfall : ℚ
  temp : ℚ
  wind : ℚ
deriving DecidableEq

/-- The `climateData` table. -/
def climateData (loc : String) : Option Climate :=
  if loc = "copenhagen" then some ⟨1000, 600, 8.7, 4.5⟩
  else if loc = "stockholm" then some ⟨950, 550, 7.4, 4.2⟩
  else if loc = "oslo" then some ⟨900, 800, 6.8, 3.8⟩
  else if loc = "berlin" then some ⟨1100, 580, 10.3, 3.9⟩
  else if loc = "amsterdam" then some ⟨1050, 850, 10.2, 4.8⟩
  else none

structure ZoneConfig where
  height : ℚ
  efficiency : ℚ
  cost : ℚ
  maintenance : ℚ
deriving DecidableEq

/-- The `zoneConfigs` table (rendering-only fields omitted).  Lookup of a key
absent from the table yields `none`, standing for `undefined`. -/
def zoneConfigs (t : String) : Option ZoneConfig :=
  if t = "solar" then some ⟨0.15, 0.20, 1500, 0.02⟩
  else if t = "green" then some ⟨0.3, 0.85, 800, 0.05⟩
  else if t = "water" then some ⟨0.1, 0.70, 600, 0.03⟩
  else if t = "social" then some ⟨0.05, 1.0, 400, 0.01⟩
  else none

structure Zone where
  type : String
  area : ℚ
  efficiency : ℚ
  cost : ℚ
  maintenance : ℚ
deriving DecidableEq

/-- `calculateZoneEfficiency(type, x, z)` (script.js).  Reads
`zoneConfigs[type].efficiency`, which throws for an unknown type: modelled by
`Option.map` on the table lookup.  The `x` argument is unused by the source. -/
def calculateZoneEfficiency (type : String) (_x z : ℚ) (climate : Climate)
    (_w l : ℚ) : Option ℚ :=
  (zoneConfigs type).map fun cfg =>
    if type = "solar" then
      cfg.efficiency * (0.7 + ((z + l / 2) / l) * 0.3) * (climate.solar / 1000)
    else if type = "green" then
      cfg.efficiency * min 1.2 (climate.rainfall / 600)
    else cfg.efficiency

/-- `addZone(x, z, type)` (script.js).  `r` is the `Math.random()` draw for the
zone size.  The source first reads `config.height` from `zoneConfigs[type]`,
which throws a TypeError when the type is unknown: modelled as `none`.
Returns the new zone record together with its fresh position cell. -/
def addZone (r x z : ℚ) (type : String) (climate : Climate) (w l : ℚ) :
    Option (Zone × (ℚ × ℚ)) :=
  match zoneConfigs type, calculateZoneEfficiency type x z climate w l with
  | some config, some eff =>
      let size := 3 + r * 4
      some ({ type := type, area := size * size, efficiency := eff,
              cost := config.cost * size * size,
              maintenance := config.maintenance }, (x, z))
  | _, _ => none

structure Metrics where
  totalArea : ℚ
  solarArea : ℚ
  greenArea : ℚ
  waterArea : ℚ
  socialArea : ℚ
  energyOutput : ℚ
  waterRetention : ℚ
  co2Reduction : ℚ
  totalCost : ℚ
  totalMaintenance : ℚ
  efficiency : ℚ
deriving DecidableEq

structure MetricsAcc where
  solarArea : ℚ
  greenArea : ℚ
  waterArea : ℚ
  socialArea : ℚ
  totalCost : ℚ
  totalMaintenance : ℚ
  energyOutput : ℚ
  co2Reduction : ℚ
deriving DecidableEq

/-- One `zones.forEach` step of `calculateAdvancedMetrics` (script.js).  The
solar branch first grows `energyOutput`, then adds the grown running total
times 0.0002 to `co2Reduction`, exactly as the two sequential statements in
the source. -/
def metricsStep (climate : Climate) (acc : MetricsAcc) (zone : Zone) : MetricsAcc :=
  let acc1 :=
    if zone.type = "solar" then
      let energy := acc.energyOutput + zone.area * climate.solar * zone.efficiency * 0.2 * 0.85
      { acc with solarArea := acc.solarArea + zone.area,
                 energyOutput := energy,
                 co2Reduction := acc.co2Reduction + energy * 0.0002 }
    else if zone.type = "green" then
      { acc with greenArea := acc.greenArea + zone.area,
                 co2Reduction := acc.co2Reduction + zone.area * 20 * zone.efficiency }
    else if zone.type = "water" then
      { acc with waterArea := acc.waterArea + zone.area }
    else if zone.type = "social" then
      { acc with socialArea := acc.socialArea + zone.area }
    else acc
  { acc1 with totalCost := acc1.totalCost + zone.cost,
              totalMaintenance := acc1.totalMaintenance + zone.cost * zone.maintenance }

/-- `calculateAdvancedMetrics()` (script.js); `w` and `l` are the roof width
and length read from the inputs, `climate` the current location row. -/
def calculateAdvancedMetrics (zones : List Zone) (climate : Climate) (w l : ℚ) : Metrics :=
  let totalArea := w * l
  let acc := zones.foldl (metricsStep climate) ⟨0, 0, 0, 0, 0, 0, 0, 0⟩
  { totalArea := totalArea
    solarArea := acc.solarArea
    greenArea := acc.greenArea
    waterArea := acc.waterArea
    socialArea := acc.socialArea
    energyOutput := acc.energyOutput
    waterRetention := (acc.greenArea + acc.waterArea) * climate.rainfall * 0.001 * 0.7
    co2Reduction := acc.co2Reduction / 1000
    totalCost := acc.totalCost
    totalMaintenance := acc.totalMaintenance
    efficiency := (acc.solarArea + acc.greenArea + acc.waterArea + acc.socialArea) / totalArea }

/-- `clearZones()` (script.js): empties the zone list and synchronously
recomputes the metrics via `updateMetrics()`.  Returns the new zone list and
the snapshot computed from it. -/
def clearZones (_zones : List Zone) (climate : Climate) (w l : ℚ) :
    List Zone × Metrics :=
  ([], calculateAdvancedMetrics [] climate w l)

/-- `calculateLayoutScore()` (script.js). -/
def calculateLayoutScore (zones : List Zone) (climate : Climate) (w l : ℚ) : ℚ :=
  let m := calculateAdvancedMetrics zones climate w l
  m.energyOutput / 1000 + 1000000 / (m.totalCost + 1) + m.co2Reduction * 10 + m.efficiency * 100

/-! ### Layout optimizer (script.js, optimizeLayout)

The source copies zones with the object spread `{...zone}`, which copies the
`position` REFERENCE, not the point: `testZones`, `bestLayout` and the
original `zones` all share one position object per zone.  The in-place
`newZone.position.x += ...` updates therefore accumulate across all 50
iterations and are visible through every snapshot.  We model the shared
position objects as the list `store`, one cell per zone, updated in place.
`rand` is the `Math.random()` stream, consumed left to right: the loop draws
two values per zone per iteration, and the final rebuild draws one value per
re-added zone. -/

/-- One optimizer iteration over the position cells: each zone draws two
stream values and moves by `(rand - 0.5) * 4` in x and z. -/
def perturbGo (rand : ℕ → ℚ) : ℕ → List (ℚ × ℚ) → List (ℚ × ℚ)
  | _, [] => []
  | k, p :: ps =>
      (p.1 + (rand k - 0.5) * 4, p.2 + (rand (k + 1) - 0.5) * 4) :: perturbGo rand (k + 2) ps

/-- The 50-iteration hill-climbing loop.  Each iteration perturbs every
position cell, rescores via `calculateLayoutScore` (which reads no
positions), and keeps the larger score.  The source also reassigns
`bestLayout` on acceptance, but every layout snapshot is a shallow copy
sharing the same position objects and the same remaining fields as `zones`,
so that bookkeeping has no observable effect and is not carried here.
Returns the best score, the final position cells and the next unused stream
index. -/
def optLoop (zones : List Zone) (climate : Climate) (w l : ℚ) (rand : ℕ → ℚ) :
    ℕ → ℕ → ℚ → List (ℚ × ℚ) → ℚ × List (ℚ × ℚ) × ℕ
  | 0, base, best, store => (best, store, base)
  | k + 1, base, best, store =>
      let store1 := perturbGo rand base store
      let score := calculateLayoutScore zones climate w l
      let best1 := if best < score then score else best
      optLoop zones climate w l rand k (base + 2 * store.length) best1 store1

/-- The trailing `bestLayout.forEach(zone => addZone(...))` rebuild: re-adds
each zone at the position read from its (shared, mutated) position object,
consuming one stream draw per zone for the new random size.  `none` when some
zone type is absent from `zoneConfigs` (addZone throws). -/
def rebuildGo (rand : ℕ → ℚ) (climate : Climate) (w l : ℚ) :
    ℕ → List (String × ℚ × ℚ) → Option (List Zone × List (ℚ × ℚ))
  | _, [] => some ([], [])
  | k, (t, x, z) :: rest =>
      match addZone (rand k) x z t climate w l, rebuildGo rand climate w l (k + 1) rest with
      | some (zo, p), some (zs, ps) => some (zo :: zs, p :: ps)
      | _, _ => none

structure OptResult where
  zones : List Zone
  store : List (ℚ × ℚ)
  alerted : Option ℚ
deriving DecidableEq

/-- `optimizeLayout()` (script.js).  With an empty zone list the source alerts
and returns at once (`alerted := none`: no score is shown).  Otherwise it runs
the 50-iteration loop, clears the zones and re-adds every `bestLayout` entry
at its mutated shared position, then alerts the best score. -/
def optimizeLayout (zones : List Zone) (store : List (ℚ × ℚ)) (rand : ℕ → ℚ)
    (climate : Climate) (w l : ℚ) : Option OptResult :=
  if zones = [] then some ⟨[], store, none⟩
  else
    let s0 := calculateLayoutScore zones climate w l
    let res := optLoop zones climate w l rand 50 0 s0 store
    match rebuildGo rand climate w l res.2.2 ((zones.map Zone.type).zip res.2.1) with
    | some (zs, ps) => some ⟨zs, ps, some res.1⟩
    | none => none

/-! ### Component cost model (src/lib/roof/geometry.ts cost section and
src/lib/materials/industrial-materials.ts) -/

structure RoofComponent where
  id : String
  type : String
  position : ℚ × ℚ × ℚ
  rotation : ℚ × ℚ × ℚ
  scale : ℚ × ℚ × ℚ
  selected : Bool
deriving DecidableEq

structure Material where
  name : String
  price : ℚ
  durability : ℚ
  description : String
deriving DecidableEq

/-- The `industrialMaterials` table (rendering fields omitted).  Note the keys
are the CamelCase material names, not the lowercase component type strings. -/
def industrialMaterials (k : String) : Option Material :=
  if k = "EPDM" then some ⟨"EPDM Rubber", 8.50, 30, "Ethylene Propylene Diene Monomer - durable rubber roofing"⟩
  else if k = "TPO" then some ⟨"TPO Membrane", 6.75, 25, "Thermoplastic Polyolefin - energy efficient white membrane"⟩
  else if k = "MetalPanel" then some ⟨"Metal Panel", 12.00, 40, "Galvanized steel panels - long lasting and recyclable"⟩
  else if k = "Bitumen" then some ⟨"Modified Bitumen", 5.25, 20, "Asphalt-based membrane - cost effective option"⟩
  else if k = "HVACUnit" then some ⟨"HVAC Unit", 0, 15, "Commercial HVAC unit"⟩
  else if k = "SolarPanel" then some ⟨"Solar Panel", 3.50, 25, "Monocrystalline silicon solar panel"⟩
  else if k = "SkylightGlass" then some ⟨"Skylight Glass", 0, 20, "Tempered safety glass for skylights"⟩
  else if k = "SkylightFrame" then some ⟨"Skylight Frame", 0, 25, "Aluminum frame for skylights"⟩
  else none

/-- `getComponentArea`: base footprint by type (default 1) times the x and z
scale factors. -/
def getComponentArea (c : RoofComponent) : ℚ :=
  let baseArea : ℚ :=
    if c.type = "hvac" then 4
    else if c.type = "skylight" then 6
    else if c.type = "solar" then 2
    else if c.type = "vent" then 0.5
    else if c.type = "antenna" then 0.25
    else if c.type = "water_tank" then 7
    else 1
  baseArea * (c.scale.1 * c.scale.2.2)

def getComponentDisplayName (t : String) : String :=
  if t = "hvac" then "HVAC Unit"
  else if t = "skylight" then "Skylight"
  else if t = "solar" then "Solar Panel"
  else if t = "vent" then "Ventilation Unit"
  else if t = "antenna" then "Communication Antenna"
  else if t = "water_tank" then "Water Storage Tank"
  else t

def getComponentCategory (t : String) : String :=
  if t = "hvac" then "Mechanical"
  else if t = "skylight" then "Architectural"
  else if t = "solar" then "Renewable Energy"
  else if t = "vent" then "Mechanical"
  else if t = "antenna" then "Communication"
  else if t = "water_tank" then "Plumbing"
  else "General"

structure CostItem where
  id : String
  name : String
  category : String
  quantity : ℚ
  unit : String
  unitCost : ℚ
  totalCost : ℚ
  material : String
  specifications : String
deriving DecidableEq

/-- `calculateComponentCost`: looks the component type up in
`industrialMaterials` and falls back to the zero-cost placeholder when the
lookup misses. -/
def calculateComponentCost (c : RoofComponent) : CostItem :=
  let baseArea := getComponentArea c
  match industrialMaterials c.type with
  | none =>
      { id := c.id, name := c.type, category := "Unknown", quantity := 1,
        unit := "each", unitCost := 0, totalCost := 0, material := "Unknown",
        specifications := "No specifications available" }
  | some material =>
      { id := c.id, name := getComponentDisplayName c.type,
        category := getComponentCategory c.type, quantity := baseArea,
        unit := "sq ft", unitCost := material.price,
        totalCost := material.price * baseArea, material := material.name,
        specifications := material.description }

structure BillOfMaterials where
  items : List CostItem
  subtotal : ℚ
  laborCost : ℚ
  overhead : ℚ
  totalCost : ℚ
  currency : String
deriving DecidableEq

/-- `generateBillOfMaterials` (the `lastUpdated` timestamp is omitted). -/
def generateBillOfMaterials (components : List RoofComponent) : BillOfMaterials :=
  let items := components.map calculateComponentCost
  let materialCost := (items.map CostItem.totalCost).sum
  let laborCost := materialCost * 0.4
  let subtotal := materialCost + laborCost
  let overhead := subtotal * 0.1
  { items := items, subtotal := subtotal, laborCost := laborCost,
    overhead := overhead, totalCost := subtotal + overhead, currency := "USD" }

/-! ### Roof geometry generator (src/lib/roof/geometry.ts)

Vertices are modelled over the reals; `Math.tan` is `Real.tan` and vector
normalization uses `Real.sqrt`.  The `THREE.BufferGeometry` assembled by the
wrapper is rendering plumbing (a flat copy of the same vertex, normal, uv and
index data) and is not modelled; `RoofGeometry` keeps the four data lists.
`normals` is kept as one vector per vertex rather than a flat number array.
The `SeededRNG` argument threaded to the per-type builders is unused by all
of them (`_rng` in the source) and is dropped here. -/

@[ext]
structure Vec3 where
  x : ℝ
  y : ℝ
  z : ℝ

namespace Vec3

def zero : Vec3 := ⟨0, 0, 0⟩

def add (a b : Vec3) : Vec3 := ⟨a.x + b.x, a.y + b.y, a.z + b.z⟩

def sub (a b : Vec3) : Vec3 := ⟨a.x - b.x, a.y - b.y, a.z - b.z⟩

def smul (c : ℝ) (v : Vec3) : Vec3 := ⟨c * v.x, c * v.y, c * v.z⟩

/-- `THREE.Vector3.crossVectors`. -/
def cross (a b : Vec3) : Vec3 :=
  ⟨a.y * b.z - a.z * b.y, a.z * b.x - a.x * b.z, a.x * b.y - a.y * b.x⟩

noncomputable def length (v : Vec3) : ℝ := Real.sqrt (v.x ^ 2 + v.y ^ 2 + v.z ^ 2)

/-- `THREE.Vector3.normalize`: `divideScalar(length || 1)`, so the zero vector
is left unchanged. -/
noncomputable def normalize (v : Vec3) : Vec3 :=
  if length v = 0 then v else smul (1 / length v) v

end Vec3

structure RoofParams where
  width : ℝ
  depth : ℝ
  pitch : ℝ
  overhang : ℝ
  type : String
  seed : ℤ ⊕ String

structure RoofGeometry where
  vertices : List Vec3
  faces : List ℕ
  uvs : List ℝ
  normals : List Vec3

/-- Split the flat face index list into triangles (the `i += 3` loop; a
trailing fragment shorter than 3 is never read). -/
def faceTriples : List ℕ → List (ℕ × ℕ × ℕ)
  | i1 :: i2 :: i3 :: rest => (i1, i2, i3) :: faceTriples rest
  | _ => []

/-- The normalized face normal `cross(v2 - v1, v3 - v1).normalize()`. -/
noncomputable def faceNormal (vs : List Vec3) (t : ℕ × ℕ × ℕ) : Vec3 :=
  let v1 := vs.getD t.1 Vec3.zero
  let v2 := vs.getD t.2.1 Vec3.zero
  let v3 := vs.getD t.2.2 Vec3.zero
  Vec3.normalize (Vec3.cross (Vec3.sub v2 v1) (Vec3.sub v3 v1))

/-- The six uv numbers pushed for one triangle in `generateFaceUVs`:
projection plane chosen by the dominant component of the face normal. -/
noncomputable def faceUV (vs : List Vec3) (t : ℕ × ℕ × ℕ) : List ℝ :=
  let v1 := vs.getD t.1 Vec3.zero
  let v2 := vs.getD t.2.1 Vec3.zero
  let v3 := vs.getD t.2.2 Vec3.zero
  let n := Vec3.normalize (Vec3.cross (Vec3.sub v2 v1) (Vec3.sub v3 v1))
  if |n.y| > |n.x| ∧ |n.y| > |n.z| then
    [v1.x, v1.z, v2.x, v2.z, v3.x, v3.z]
  else if |n.z| > |n.x| then
    [v1.x, v1.y, v2.x, v2.y, v3.x, v3.y]
  else
    [v1.y, v1.z, v2.y, v2.z, v3.y, v3.z]

noncomputable def generateFaceUVs (vs : List Vec3) (faces : List ℕ) : List ℝ :=
  ((faceTriples faces).map (faceUV vs)).flatten

/-- Add a vector into the accumulator slot of vertex `i`
(`normals[i*3+c] += normal`). -/
noncomputable def addAt (l : List Vec3) (i : ℕ) (v : Vec3) : List Vec3 :=
  l.set i (Vec3.add (l.getD i Vec3.zero) v)

/-- `faceCounts[i]++`. -/
def bumpAt (l : List ℕ) (i : ℕ) : List ℕ := l.set i (l.getD i 0 + 1)

/-- One triangle of the accumulation loop of `calculateFaceNormals`: add the
normalized face normal into the three vertex slots and bump their counts. -/
noncomputable def accumStep (vs : List Vec3) (acc : List Vec3 × List ℕ)
    (t : ℕ × ℕ × ℕ) : List Vec3 × List ℕ :=
  let n := faceNormal vs t
  (addAt (addAt (addAt acc.1 t.1 n) t.2.1 n) t.2.2 n,
   bumpAt (bumpAt (bumpAt acc.2 t.1) t.2.1) t.2.2)

/-- The accumulation loop of `calculateFaceNormals`. -/
noncomputable def accumNormals (vs : List Vec3) (ts : List (ℕ × ℕ × ℕ)) :
    List Vec3 × List ℕ :=
  ts.foldl (accumStep vs) (List.replicate vs.length Vec3.zero, List.replicate vs.length 0)

/-- `calculateFaceNormals`: accumulate, average by the face count, and
re-normalize; vertices touched by no face keep the zero vector. -/
noncomputable def calculateFaceNormals (vs : List Vec3) (faces : List ℕ) : List Vec3 :=
  let res := accumNormals vs (faceTriples faces)
  (List.range vs.length).map fun i =>
    let c := res.2.getD i 0
    if 0 < c then Vec3.normalize (Vec3.smul (1 / (c : ℝ)) (res.1.getD i Vec3.zero))
    else res.1.getD i Vec3.zero

/-- The four base corner vertices shared by every roof type. -/
def baseCorners (halfWidth halfDepth : ℝ) : List Vec3 :=
  [⟨-halfWidth, 0, -halfDepth⟩, ⟨halfWidth, 0, -halfDepth⟩,
   ⟨halfWidth, 0, halfDepth⟩, ⟨-halfWidth, 0, halfDepth⟩]

/-- The six vertices pushed by `generateGableRoof` (and, identically, by
`generateHipRoof`): base rectangle plus the two ridge points. -/
def ridgeVerts (halfWidth halfDepth ridgeHeight : ℝ) : List Vec3 :=
  baseCorners halfWidth halfDepth ++ [⟨0, ridgeHeight, -halfDepth⟩, ⟨0, ridgeHeight, halfDepth⟩]

/-- The face indices pushed by `generateGableRoof` and `generateHipRoof`:
front gable, back gable, left side (two triangles), right side (two
triangles), bottom face (two triangles). -/
def ridgeFaces : List ℕ := [0, 4, 1, 2, 5, 3, 0, 3, 4, 3, 5, 4, 1, 4, 2, 4, 5, 2, 0, 1, 2, 0, 2, 3]

/-- The two bottom-face triangles of `generateFlatRoof`. -/
def flatFaces : List ℕ := [0, 1, 2, 0, 2, 3]

noncomputable def generateFlatRoof (params : RoofParams) : RoofGeometry :=
  let halfWidth := params.width / 2 + params.overhang
  let halfDepth := params.depth / 2 + params.overhang
  let vertices := baseCorners halfWidth halfDepth
  { vertices := vertices, faces := flatFaces,
    uvs := generateFaceUVs vertices flatFaces,
    normals := calculateFaceNormals vertices flatFaces }

noncomputable def generateGableRoof (params : RoofParams) : RoofGeometry :=
  let halfWidth := params.width / 2 + params.overhang
  let halfDepth := params.depth / 2 + params.overhang
  let pitchRad := params.pitch * Real.pi / 180
  let ridgeHeight := params.width / 2 * Real.tan pitchRad
  let vertices := ridgeVerts halfWidth halfDepth ridgeHeight
  { vertices := vertices, faces := ridgeFaces,
    uvs := generateFaceUVs vertices ridgeFaces,
    normals := calculateFaceNormals vertices ridgeFaces }

noncomputable def generateHipRoof (params : RoofParams) : RoofGeometry :=
  let halfWidth := params.width / 2 + params.overhang
  let halfDepth := params.depth / 2 + params.overhang
  let pitchRad := params.pitch * Real.pi / 180
  let ridgeHeight := min params.width params.depth / 2 * Real.tan pitchRad
  let vertices := ridgeVerts halfWidth halfDepth ridgeHeight
  { vertices := vertices, faces := ridgeFaces,
    uvs := generateFaceUVs vertices ridgeFaces,
    normals := calculateFaceNormals vertices ridgeFaces }

/-- `generateRoofGeometry`: dispatch on the roof type string; any
unrecognized type falls through the switch default to the gable builder. -/
noncomputable def generateRoofGeometry (params : RoofParams) : RoofGeometry :=
  if params.type = "flat" then generateFlatRoof params
  else if params.type = "gable" then generateGableRoof params
  else if params.type = "hip" then generateHipRoof params
  else generateGableRoof params

/-! ### Claim-side formulations

The following definitions restate the aggregation formulas in the wording of
the specification, to be compared against `calculateAdvancedMetrics`. -/

/-- Total area of the zones of one type. -/
def sumAreaOf (t : String) (zones : List Zone) : ℚ :=
  ((zones.filter fun z => z.type = t).map Zone.area).sum

/-- One step of the energy and CO2 accumulation exactly as the specification
words it: a solar zone grows the energy total and then adds the grown
running total times 0.0002 to the CO2 figure (the cumulative form); a green
zone adds `area * 20 * efficiency`. -/
def claimedStep (climate : Climate) (p : ℚ × ℚ) (z : Zone) : ℚ × ℚ :=
  if z.type = "solar" then
    let e := p.1 + z.area * climate.solar * z.efficiency * 0.20 * 0.85
    (e, p.2 + e * 0.0002)
  else if z.type = "green" then (p.1, p.2 + z.area * 20 * z.efficiency)
  else p

/-- The claimed energy / CO2 (kg) pair accumulated over a zone list. -/
def claimedEnergyCO2 (climate : Climate) (p : ℚ × ℚ) (zones : List Zone) : ℚ × ℚ :=
  zones.foldl (claimedStep climate) p

/-! ### Concrete sample inputs and auxiliary counting definitions -/

def copenhagenClimate : Climate := ⟨1000, 600, 8.7, 4.5⟩

/-- A sample already-placed solar zone (area 16 m², centered efficiency). -/
def sampleSolarZone : Zone :=
  { type := "solar", area := 16, efficiency := 0.17, cost := 24000, maintenance := 0.02 }

/-- The claimed single solar component with scale `[2,1,1]`. -/
def solarComponent : RoofComponent :=
  { id := "comp-1", type := "solar", position := (0, 0, 0), rotation := (0, 0, 0),
    scale := (2, 1, 1), selected := false }

/-- The placeholder cost item returned when the material lookup misses. -/
def placeholderItem (id ty : String) : CostItem :=
  { id := id, name := ty, category := "Unknown", quantity := 1, unit := "each",
    unitCost := 0, totalCost := 0, material := "Unknown",
    specifications := "No specifications available" }

/-- A parameter record with a roof type string outside the recognized set. -/
def domeParams : RoofParams :=
  { width := 10, depth := 8, pitch := 30, overhang := 0, type := "dome", seed := Sum.inr "x" }

/-- A component with a type string outside the material table. -/
def customComponent : RoofComponent :=
  { id := "comp-2", type := "custom", position := (0, 0, 0), rotation := (0, 0, 0),
    scale := (1, 1, 1), selected := false }

/-- Multiplicity of vertex index `i` in one face triple. -/
def occ (i : ℕ) (t : ℕ × ℕ × ℕ) : ℕ :=
  (if t.1 = i then 1 else 0) + (if t.2.1 = i then 1 else 0) + (if t.2.2 = i then 1 else 0)

/-- The total face-normal contribution accumulated into vertex slot `i`. -/
noncomputable def sumContrib (vs : List Vec3) (i : ℕ) : List (ℕ × ℕ × ℕ) → Vec3
  | [] => Vec3.zero
  | t :: ts => Vec3.add (Vec3.smul (occ i t : ℝ) (faceNormal vs t)) (sumContrib vs i ts)

/-- The total face count accumulated into vertex slot `i`. -/
def countContrib (i : ℕ) : List (ℕ × ℕ × ℕ) → ℕ
  | [] => 0
  | t :: ts => occ i t + countContrib i ts

/-- The triangle list of the gable and hip roofs. -/
def gableTriples : List (ℕ × ℕ × ℕ) :=
  [(0, 4, 1), (2, 5, 3), (0, 3, 4), (3, 5, 4), (1, 4, 2), (4, 5, 2), (0, 1, 2), (0, 2, 3)]

/-- A well-pitched gable roof used to witness the invariants. -/
def steepGable : RoofParams :=
  { width := 2, depth := 2, pitch := 45, overhang := 0, type := "gable", seed := Sum.inl 3 }

/-- A zero-pitch gable roof: valid parameters by the specification
(pitch lies in [0, 90)). -/
def flatPitchGable : RoofParams :=
  { width := 2, depth := 2, pitch := 0, overhang := 0, type := "gable", seed := Sum.inl 5 }

/-- The gable example from the specification scenario. -/
def gableExample : RoofParams :=
  { width := 10, depth := 8, pitch := 30, overhang := 0, type := "gable", seed := Sum.inr "x" }

/-- A square hip roof at 45 degrees. -/
def hipExample : RoofParams :=
  { width := 4, depth := 4, pitch := 45, overhang := 0, type := "hip", seed := Sum.inl 1 }

/-- A degenerate zero-width gable parameter record. -/
def zeroWidthGable : RoofParams :=
  { width := 0, depth := 8, pitch := 30, overhang := 0, type := "gable", seed := Sum.inl 7 }

lemma sumAreaOf_cons (t : String) (z : Zone) (zs : List Zone) :
    sumAreaOf t (z :: zs) = (if z.type = t then z.area else 0) + sumAreaOf t zs := by
  by_cases h : z.type = t <;> simp [sumAreaOf, List.filter_cons, h]

/-- The single-pass metrics accumulator agrees, field by field, with the
separate claimed folds, for every starting accumulator. -/
lemma metricsFold (climate : Climate) (zones : List Zone) : ∀ acc : MetricsAcc,
    (zones.foldl (metricsStep climate) acc).solarArea = acc.solarArea + sumAreaOf "solar" zones
  ∧ (zones.foldl (metricsStep climate) acc).greenArea = acc.greenArea + sumAreaOf "green" zones
  ∧ (zones.foldl (metricsStep climate) acc).waterArea = acc.waterArea + sumAreaOf "water" zones
  ∧ (zones.foldl (metricsStep climate) acc).socialArea = acc.socialArea + sumAreaOf "social" zones
  ∧ (zones.foldl (metricsStep climate) acc).energyOutput
      = (claimedEnergyCO2 climate (acc.energyOutput, acc.co2Reduction) zones).1
  ∧ (zones.foldl (metricsStep climate) acc).co2Reduction
      = (claimedEnergyCO2 climate (acc.energyOutput, acc.co2Reduction) zones).2
  ∧ (zones.foldl (metricsStep climate) acc).totalCost
      = acc.totalCost + (zones.map Zone.cost).sum
  ∧ (zones.foldl (metricsStep climate) acc).totalMaintenance
      = acc.totalMaintenance + (zones.map fun z => z.cost * z.maintenance).sum := by
  induction zones with
  | nil => intro acc; simp [sumAreaOf, claimedEnergyCO2]
  | cons z zs ih =>
      intro acc
      obtain ⟨h1, h2, h3, h4, h5, h6, h7, h8⟩ := ih (metricsStep climate acc z)
      simp only [List.foldl_cons, List.map_cons, List.sum_cons]
      refine ⟨?_, ?_, ?_, ?_, ?_, ?_, ?_, ?_⟩ <;>
        simp only [h1, h2, h3, h4, h5, h6, h7, h8, sumAreaOf_cons, claimedEnergyCO2,
          List.foldl_cons] <;>
        by_cases hs : z.type = "solar" <;>
        by_cases hg : z.type = "green" <;>
        by_cases hw : z.type = "water" <;>
        by_cases hso : z.type = "social" <;>
        simp [metricsStep, claimedStep, hs, hg, hw, hso] <;> ring

/-- C1: for every zone list and climate table, `calculateAdvancedMetrics`
computes exactly the claimed formulas: solar zones accumulate
`area * solar * efficiency * 0.20 * 0.85` into the energy total and the grown
running energy total times 0.0002 into the CO2 figure (the cumulative,
iteration-order-dependent form); green zones accumulate
`area * 20 * efficiency`; `waterRetention = (greenArea + waterArea) *
(rainfall / 1000) * 0.7`; `efficiency = (solarArea + greenArea + waterArea +
socialArea) / totalArea`; and the reported CO2 figure is the accumulated kg
value divided by 1000. -/
theorem C1_kpi_aggregation (zones : List Zone) (climate : Climate) (w l : ℚ) :
    (calculateAdvancedMetrics zones climate w l).energyOutput
      = (claimedEnergyCO2 climate (0, 0) zones).1
  ∧ (calculateAdvancedMetrics zones climate w l).co2Reduction
      = (claimedEnergyCO2 climate (0, 0) zones).2 / 1000
  ∧ (calculateAdvancedMetrics zones climate w l).waterRetention
      = (sumAreaOf "green" zones + sumAreaOf "water" zones) * (climate.rainfall / 1000) * 0.7
  ∧ (calculateAdvancedMetrics zones climate w l).efficiency
      = (sumAreaOf "solar" zones + sumAreaOf "green" zones + sumAreaOf "water" zones
          + sumAreaOf "social" zones) / (calculateAdvancedMetrics zones climate w l).totalArea := by
  obtain ⟨h1, h2, h3, h4, h5, h6, h7, h8⟩ := metricsFold climate zones ⟨0, 0, 0, 0, 0, 0, 0, 0⟩
  refine ⟨?_, ?_, ?_, ?_⟩
  · simpa [calculateAdvancedMetrics] using h5
  · simp [calculateAdvancedMetrics, h6]
  · simp only [calculateAdvancedMetrics, h2, h3]
    ring
  · simp only [calculateAdvancedMetrics, h1, h2, h3, h4]
    ring

/-! ### C9: determinism of the generator and of the seeded RNG -/

lemma SeededRNG.seed_advance (r : SeededRNG) : ∀ k, (r.advance k).seed = r.seed := by
  intro k
  induction k with
  | zero => rfl
  | succ k ih => simp [advance, next, ih]

/-- C9: `generateRoofGeometry` is deterministic (two calls on the same params
agree), and `SeededRNG` is reproducible: equal seeds give identical output
sequences, and after `reset()` the sequence restarts identically. -/
theorem C9_determinism :
    (∀ params : RoofParams, generateRoofGeometry params = generateRoofGeometry params)
  ∧ (∀ s1 s2 : ℤ ⊕ String, s1 = s2 →
      ∀ n, (SeededRNG.create s1).output n = (SeededRNG.create s2).output n)
  ∧ (∀ (s : ℤ ⊕ String) (k n : ℕ),
      (((SeededRNG.create s).advance k).reset).output n = (SeededRNG.create s).output n) := by
  refine ⟨fun _ => rfl, fun s1 s2 h n => by rw [h], fun s k n => ?_⟩
  have hres : ((SeededRNG.create s).advance k).reset = SeededRNG.create s := by
    have hs := SeededRNG.seed_advance (SeededRNG.create s) k
    simp [SeededRNG.reset, SeededRNG.create] at hs ⊢
    exact hs
  rw [hres]

/-- Witness for C9: the equal-seed hypothesis discharged at the string seed
used by the spec example. -/
theorem C9_determinism_witness :
    (Sum.inr "x" : ℤ ⊕ String) = Sum.inr "x"
  ∧ (SeededRNG.create (Sum.inr "x")).output 2 = (SeededRNG.create (Sum.inr "x")).output 2 :=
  ⟨rfl, C9_determinism.2.1 (Sum.inr "x") (Sum.inr "x") rfl 2⟩

/-! ### C5: bill of materials for a solar component

`calculateComponentCost` looks `component.type` up in `industrialMaterials`,
whose keys are the CamelCase material names (`SolarPanel`, `EPDM`, ...), so
the lookup misses every lowercase component type and every item degrades to
the zero-cost placeholder. -/

/-- C5: evaluating the code at the claimed input.  The component area is
indeed `2 * 2 = 4`, but `industrialMaterials["solar"]` is undefined (the
table keys are CamelCase material names), so the item is the zero-cost
placeholder and the bill of materials totals $0, not the claimed $21.56
from the unused SolarPanel price of $3.50. -/
theorem C5_solar_bom_is_zero :
    getComponentArea solarComponent = 4
  ∧ industrialMaterials "solar" = none
  ∧ industrialMaterials "SolarPanel"
      = some ⟨"Solar Panel", 3.50, 25, "Monocrystalline silicon solar panel"⟩
  ∧ (calculateComponentCost solarComponent).unitCost = 0
  ∧ (calculateComponentCost solarComponent).totalCost = 0
  ∧ (generateBillOfMaterials [solarComponent]).totalCost = 0
  ∧ (generateBillOfMaterials [solarComponent]).totalCost ≠ 21.56 := by
  have hc : calculateComponentCost solarComponent =
      { id := "comp-1", name := "solar", category := "Unknown", quantity := 1,
        unit := "each", unitCost := 0, totalCost := 0, material := "Unknown",
        specifications := "No specifications available" } := rfl
  refine ⟨?_, rfl, rfl, rfl, rfl, ?_, ?_⟩
  · rw [show getComponentArea solarComponent = 2 * (2 * 1) from rfl]
    norm_num
  · simp [generateBillOfMaterials, hc]
  · simp [generateBillOfMaterials, hc]
    norm_num

/-! ### C8: clearing zones -/

/-- C8 counterexample: the claim asserts the post-clear snapshot has every
field zeroed, in particular `totalArea = 0`; but `calculateAdvancedMetrics`
computes `totalArea` from the roof inputs (here 20 × 15 = 300) regardless of
the zone list, so after clearing the snapshot still reports 300. -/
theorem C8_counterexample :
    (clearZones [sampleSolarZone] copenhagenClimate 20 15).2.totalArea = 300
  ∧ ((300 : ℚ) = 0 → False) := by
  constructor
  · norm_num [clearZones, calculateAdvancedMetrics]
  · intro h; norm_num at h

/-- C8 (amended): `clearZones` empties the zone list and the synchronously
recomputed snapshot equals `calculateAdvancedMetrics` of the empty list; all
zone-derived fields of that snapshot are zero, while `totalArea` stays the
roof area `w * l` (and the snapshot has no feasibility-flag field at all). -/
theorem C8_clear_zones (zones : List Zone) (climate : Climate) (w l : ℚ) :
    (clearZones zones climate w l).1 = []
  ∧ (clearZones zones climate w l).2 = calculateAdvancedMetrics [] climate w l
  ∧ (clearZones zones climate w l).2.solarArea = 0
  ∧ (clearZones zones climate w l).2.greenArea = 0
  ∧ (clearZones zones climate w l).2.waterArea = 0
  ∧ (clearZones zones climate w l).2.socialArea = 0
  ∧ (clearZones zones climate w l).2.energyOutput = 0
  ∧ (clearZones zones climate w l).2.waterRetention = 0
  ∧ (clearZones zones climate w l).2.co2Reduction = 0
  ∧ (clearZones zones climate w l).2.totalCost = 0
  ∧ (clearZones zones climate w l).2.totalMaintenance = 0
  ∧ (clearZones zones climate w l).2.efficiency = 0
  ∧ (clearZones zones climate w l).2.totalArea = w * l := by
  refine ⟨rfl, rfl, ?_, ?_, ?_, ?_, ?_, ?_, ?_, ?_, ?_, ?_, ?_⟩ <;>
    simp [clearZones, calculateAdvancedMetrics]

/-! ### C7: unknown-type fallbacks -/

/-- C7 counterexample: the claim asserts `addZone` with an unknown zone type
does not throw; but the source dereferences `zoneConfigs[type]` (undefined
for an unknown type) for `config.height`, a TypeError, modelled here by the
`none` result. -/
theorem C7_counterexample :
    zoneConfigs "osm_roof" = none
  ∧ addZone 0.5 0 0 "osm_roof" copenhagenClimate 20 15 = none :=
  ⟨rfl, rfl⟩

/-- C7 (amended): an unrecognized `roofType` falls back to the gable builder
and an unrecognized component type yields the zero-cost placeholder item,
as claimed; but `addZone` with an unknown zone type throws (models to
`none`) instead of falling back. -/
theorem C7_unknown_type_fallbacks :
    (∀ params : RoofParams, params.type ≠ "flat" → params.type ≠ "gable" →
      params.type ≠ "hip" → generateRoofGeometry params = generateGableRoof params)
  ∧ (∀ c : RoofComponent, industrialMaterials c.type = none →
      calculateComponentCost c = placeholderItem c.id c.type)
  ∧ (∀ (r x z : ℚ) (t : String) (climate : Climate) (w l : ℚ), zoneConfigs t = none →
      addZone r x z t climate w l = none) := by
  refine ⟨fun p h1 h2 h3 => ?_, fun c h => ?_, fun r x z t climate w l h => ?_⟩
  · simp [generateRoofGeometry, h1, h2, h3]
  · simp [calculateComponentCost, h, placeholderItem]
  · simp [addZone, calculateZoneEfficiency, h]

/-- Witness for C7: the three fallback statements applied at concrete
unknown-type inputs, hypotheses discharged by evaluation. -/
theorem C7_unknown_type_fallbacks_witness :
    (domeParams.type ≠ "flat" ∧ domeParams.type ≠ "gable" ∧ domeParams.type ≠ "hip"
      ∧ generateRoofGeometry domeParams = generateGableRoof domeParams)
  ∧ (industrialMaterials customComponent.type = none
      ∧ calculateComponentCost customComponent = placeholderItem "comp-2" "custom")
  ∧ (zoneConfigs "pergola" = none
      ∧ addZone 0.25 1 2 "pergola" copenhagenClimate 20 15 = none) :=
  ⟨⟨by decide, by decide, by decide,
      C7_unknown_type_fallbacks.1 domeParams (by decide) (by decide) (by decide)⟩,
   ⟨rfl, C7_unknown_type_fallbacks.2.1 customComponent rfl⟩,
   ⟨rfl, C7_unknown_type_fallbacks.2.2 0.25 1 2 "pergola" copenhagenClimate 20 15 rfl⟩⟩

/-! ### C4: the hill-climbing optimizer -/

lemma perturbGo_length (rand : ℕ → ℚ) : ∀ (k : ℕ) (ps : List (ℚ × ℚ)),
    (perturbGo rand k ps).length = ps.length := by
  intro k ps
  induction ps generalizing k with
  | nil => rfl
  | cons p ps ih => simp [perturbGo, ih]

lemma perturbGo_getD (rand : ℕ → ℚ) : ∀ (ps : List (ℚ × ℚ)) (k j : ℕ), j < ps.length →
    (perturbGo rand k ps).getD j (0, 0) =
      ((ps.getD j (0, 0)).1 + (rand (k + 2 * j) - 0.5) * 4,
       (ps.getD j (0, 0)).2 + (rand (k + 2 * j + 1) - 0.5) * 4) := by
  intro ps
  induction ps with
  | nil => intro k j hj; simp at hj
  | cons p ps ih =>
      intro k j hj
      cases j with
      | zero => simp [perturbGo]
      | succ j =>
          have hj2 : j < ps.length := by simpa using hj
          have := ih (k + 2) j hj2
          simp only [perturbGo, List.getD_cons_succ, this]
          rw [show k + 2 + 2 * j = k + 2 * (j + 1) by ring]

/-- The accepted score never changes: the layout score does not read the
perturbed positions, so every iteration compares the initial score with
itself and the strict-improvement test fails. -/
lemma optLoop_best (zones : List Zone) (climate : Climate) (w l : ℚ) (rand : ℕ → ℚ) :
    ∀ (k base : ℕ) (store : List (ℚ × ℚ)),
      (optLoop zones climate w l rand k base (calculateLayoutScore zones climate w l) store).1
        = calculateLayoutScore zones climate w l := by
  intro k
  induction k with
  | zero => intro base store; rfl
  | succ k ih =>
      intro base store
      simp only [optLoop]
      rw [if_neg (lt_irrefl _)]
      exact ih _ _

lemma optLoop_store_length (zones : List Zone) (climate : Climate) (w l : ℚ) (rand : ℕ → ℚ) :
    ∀ (k base : ℕ) (best : ℚ) (store : List (ℚ × ℚ)),
      (optLoop zones climate w l rand k base best store).2.1.length = store.length := by
  intro k
  induction k with
  | zero => intro base best store; rfl
  | succ k ih =>
      intro base best store
      simp only [optLoop]
      rw [ih]
      exact perturbGo_length rand base store

lemma optLoop_base (zones : List Zone) (climate : Climate) (w l : ℚ) (rand : ℕ → ℚ) :
    ∀ (k base : ℕ) (best : ℚ) (store : List (ℚ × ℚ)),
      (optLoop zones climate w l rand k base best store).2.2 = base + k * (2 * store.length) := by
  intro k
  induction k with
  | zero => intro base best store; simp [optLoop]
  | succ k ih =>
      intro base best store
      simp only [optLoop]
      rw [ih, perturbGo_length]
      ring

/-- The cumulative effect of the loop on the position cells: after `k`
iterations, cell `j` has moved by the sum of one offset per iteration in
each axis (the perturbations are never rolled back, since all layout
snapshots share the same position objects). -/
lemma optLoop_store (zones : List Zone) (climate : Climate) (w l : ℚ) (rand : ℕ → ℚ) :
    ∀ (k base : ℕ) (best : ℚ) (store : List (ℚ × ℚ)) (j : ℕ), j < store.length →
      (optLoop zones climate w l rand k base best store).2.1.getD j (0, 0) =
        ((store.getD j (0, 0)).1
            + ∑ i ∈ Finset.range k, (rand (base + i * (2 * store.length) + 2 * j) - 0.5) * 4,
         (store.getD j (0, 0)).2
            + ∑ i ∈ Finset.range k, (rand (base + i * (2 * store.length) + 2 * j + 1) - 0.5) * 4) := by
  intro k
  induction k with
  | zero => intro base best store j hj; simp [optLoop]
  | succ k ih =>
      intro base best store j hj
      simp only [optLoop]
      have hlen : (perturbGo rand base store).length = store.length := perturbGo_length rand base store
      rw [ih (base + 2 * store.length) _ (perturbGo rand base store) j (by rw [hlen]; exact hj),
          perturbGo_getD rand store base j hj, hlen]
      have harg1 : ∀ i : ℕ, base + 2 * store.length + i * (2 * store.length) + 2 * j
          = base + (i + 1) * (2 * store.length) + 2 * j := by intro i; ring
      have h1 : ∑ i ∈ Finset.range k,
            (rand (base + 2 * store.length + i * (2 * store.length) + 2 * j) - 0.5) * 4
          = ∑ i ∈ Finset.range k,
            (rand (base + (i + 1) * (2 * store.length) + 2 * j) - 0.5) * 4 := by
        refine Finset.sum_congr rfl fun i _ => ?_
        rw [harg1 i]
      have harg2 : ∀ i : ℕ, base + 2 * store.length + i * (2 * store.length) + 2 * j + 1
          = base + (i + 1) * (2 * store.length) + 2 * j + 1 := by intro i; ring
      have h2 : ∑ i ∈ Finset.range k,
            (rand (base + 2 * store.length + i * (2 * store.length) + 2 * j + 1) - 0.5) * 4
          = ∑ i ∈ Finset.range k,
            (rand (base + (i + 1) * (2 * store.length) + 2 * j + 1) - 0.5) * 4 := by
        refine Finset.sum_congr rfl fun i _ => ?_
        rw [harg2 i]
      rw [h1, h2, Finset.sum_range_succ' (fun i => (rand (base + i * (2 * store.length) + 2 * j) - 0.5) * 4),
          Finset.sum_range_succ' (fun i => (rand (base + i * (2 * store.length) + 2 * j + 1) - 0.5) * 4)]
      simp only [Nat.zero_mul, Nat.add_zero, zero_mul, add_zero, Prod.mk.injEq]
      refine ⟨by ring, by ring⟩

lemma rebuildGo_spec (rand : ℕ → ℚ) (climate : Climate) (w l : ℚ) :
    ∀ (tps : List (String × ℚ × ℚ)) (k : ℕ),
      (∀ t ∈ tps, (zoneConfigs t.1).isSome) →
      ∃ zs : List Zone,
        rebuildGo rand climate w l k tps = some (zs, tps.map Prod.snd)
        ∧ zs.length = tps.length := by
  intro tps
  induction tps with
  | nil => intro k _; exact ⟨[], rfl, rfl⟩
  | cons t rest ih =>
      intro k h
      obtain ⟨ty, x, z⟩ := t
      obtain ⟨cfg, hcfg⟩ := Option.isSome_iff_exists.mp (h _ (List.mem_cons_self _ rest))
      obtain ⟨zs, hz, hlen⟩ := ih (k + 1) (fun q hq => h q (List.mem_cons_of_mem _ hq))
      have hadd : ∃ zo, addZone (rand k) x z ty climate w l = some (zo, (x, z)) := by
        simp only [addZone, calculateZoneEfficiency, hcfg, Option.map_some]
        exact ⟨_, rfl⟩
      obtain ⟨zo, hzo⟩ := hadd
      refine ⟨zo :: zs, ?_, by simp [hlen]⟩
      simp only [rebuildGo, hzo, hz, List.map_cons]

/-- Shared characterization of `optimizeLayout` on a nonempty zone list with
one position cell per zone and stream draws in [0,1): the call succeeds, the
alerted score is the initial layout score (the strict-improvement test never
fires because the score reads no positions), and every final position is the
initial one moved by the sum of 50 per-iteration offsets, each in [-2, 2). -/
lemma optimizeLayout_spec (zones : List Zone) (store : List (ℚ × ℚ)) (rand : ℕ → ℚ)
    (climate : Climate) (w l : ℚ)
    (hne : zones ≠ []) (hlen : store.length = zones.length)
    (hrand : ∀ v, 0 ≤ rand v ∧ rand v < 1)
    (htypes : ∀ z ∈ zones, (zoneConfigs z.type).isSome) :
    ∃ res : OptResult,
      optimizeLayout zones store rand climate w l = some res
      ∧ res.alerted = some (calculateLayoutScore zones climate w l)
      ∧ res.zones.length = zones.length
      ∧ res.store.length = zones.length
      ∧ (∀ j, j < store.length →
          res.store.getD j (0, 0) =
            ((store.getD j (0, 0)).1
                + ∑ i ∈ Finset.range 50, (rand (i * (2 * store.length) + 2 * j) - 0.5) * 4,
             (store.getD j (0, 0)).2
                + ∑ i ∈ Finset.range 50, (rand (i * (2 * store.length) + 2 * j + 1) - 0.5) * 4))
      ∧ (∀ v, -2 ≤ (rand v - 0.5) * 4 ∧ (rand v - 0.5) * 4 < 2) := by
  have hbest := optLoop_best zones climate w l rand 50 0 store
  have hslen := optLoop_store_length zones climate w l rand 50 0
    (calculateLayoutScore zones climate w l) store
  have htylen : (zones.map Zone.type).length = store.length := by simp [hlen]
  have hzip : ∀ t ∈ (zones.map Zone.type).zip
      (optLoop zones climate w l rand 50 0 (calculateLayoutScore zones climate w l) store).2.1,
      (zoneConfigs t.1).isSome := by
    intro t ht
    obtain ⟨a, b⟩ := t
    obtain ⟨h1, _⟩ := List.of_mem_zip ht
    obtain ⟨zo, hzo, rfl⟩ := List.mem_map.mp h1
    exact htypes zo hzo
  obtain ⟨zs, hreb, hzslen⟩ := rebuildGo_spec rand climate w l _ _ hzip
  have hmap : ((zones.map Zone.type).zip
      (optLoop zones climate w l rand 50 0 (calculateLayoutScore zones climate w l) store).2.1).map
        Prod.snd
      = (optLoop zones climate w l rand 50 0 (calculateLayoutScore zones climate w l) store).2.1 :=
    List.map_snd_zip _ _ (by rw [hslen, htylen])
  refine ⟨⟨zs, ((zones.map Zone.type).zip
      (optLoop zones climate w l rand 50 0 (calculateLayoutScore zones climate w l) store).2.1).map
        Prod.snd,
      some (optLoop zones climate w l rand 50 0
        (calculateLayoutScore zones climate w l) store).1⟩, ?_, ?_, ?_, ?_, ?_, ?_⟩
  · simp only [optimizeLayout, if_neg hne]
    rw [hreb]
  · simp [hbest]
  · rw [hzslen]
    simp [List.length_zip, hslen, htylen, hlen]
  · simp only [hmap, hslen, hlen]
  · intro j hj
    simp only [hmap]
    have := optLoop_store zones climate w l rand 50 0
      (calculateLayoutScore zones climate w l) store j hj
    simpa using this
  · intro v
    obtain ⟨h0, h1⟩ := hrand v
    rw [show (rand v - 0.5) * 4 = 4 * rand v - 2 by ring]
    constructor <;> linarith

/-- C4 counterexample: one solar zone at the origin, the constant stream 3/4.
The score never strictly improves (the alerted best score equals the initial
score), yet the final layout sits at (50, 50), not at the original (0, 0):
each of the 50 iterations drifts the shared position object by +1 in each
axis, so zones are NOT left at their original positions when no perturbation
improves the score. -/
theorem C4_counterexample :
    ∃ res : OptResult,
      optimizeLayout [sampleSolarZone] [(0, 0)] (fun _ => 3 / 4) copenhagenClimate 20 15 = some res
      ∧ res.alerted = some (calculateLayoutScore [sampleSolarZone] copenhagenClimate 20 15)
      ∧ res.store = [(50, 50)]
      ∧ res.store ≠ [(0, 0)] := by
  obtain ⟨res, he, ha, -, hsl, hget, -⟩ :=
    optimizeLayout_spec [sampleSolarZone] [(0, 0)] (fun _ => 3 / 4) copenhagenClimate 20 15
      (by simp) rfl (fun v => by norm_num)
      (by intro z hz; simp at hz; subst hz; rfl)
  have h0 := hget 0 (by simp)
  have hv : res.store.getD 0 (0, 0) = ((50 : ℚ), (50 : ℚ)) := by
    rw [h0]
    simp [Finset.sum_const, Finset.card_range]
    norm_num
  have hlen1 : res.store.length = 1 := by simpa using hsl
  have hres : res.store = [((50 : ℚ), (50 : ℚ))] := by
    obtain ⟨a, hae⟩ := List.length_eq_one.mp hlen1
    rw [hae] at hv
    simp at hv
    rw [hae, hv]
  refine ⟨res, he, ha, hres, by rw [hres]; simp⟩

/-- C4 (amended): on a nonempty zone list, `optimizeLayout` runs exactly the
fixed 50 iterations (each moving every zone by one offset in [-2, 2) per
axis, drawn from the stream), but because the layout score reads no
positions, no perturbation ever strictly improves it: the reported best
score is the initial score, the acceptance branch never fires, and — the
object spread sharing each zone's position object — the final zones sit at
the initial position plus the SUM of all 50 per-iteration offsets, not at
their original positions.  The best score is shown in an alert rather than
returned, and an empty zone list returns early instead of iterating. -/
theorem C4_optimizer_behavior (zones : List Zone) (store : List (ℚ × ℚ)) (rand : ℕ → ℚ)
    (climate : Climate) (w l : ℚ)
    (hne : zones ≠ []) (hlen : store.length = zones.length)
    (hrand : ∀ v, 0 ≤ rand v ∧ rand v < 1)
    (htypes : ∀ z ∈ zones, (zoneConfigs z.type).isSome) :
    ∃ res : OptResult,
      optimizeLayout zones store rand climate w l = some res
      ∧ res.alerted = some (calculateLayoutScore zones climate w l)
      ∧ res.zones.length = zones.length
      ∧ res.store.length = zones.length
      ∧ (∀ j, j < store.length →
          res.store.getD j (0, 0) =
            ((store.getD j (0, 0)).1
                + ∑ i ∈ Finset.range 50, (rand (i * (2 * store.length) + 2 * j) - 0.5) * 4,
             (store.getD j (0, 0)).2
                + ∑ i ∈ Finset.range 50, (rand (i * (2 * store.length) + 2 * j + 1) - 0.5) * 4))
      ∧ (∀ v, -2 ≤ (rand v - 0.5) * 4 ∧ (rand v - 0.5) * 4 < 2) :=
  optimizeLayout_spec zones store rand climate w l hne hlen hrand htypes

/-- Witness for C4: the optimizer characterization applied to one solar zone
with the constant stream 3/4, every hypothesis discharged by evaluation. -/
theorem C4_optimizer_behavior_witness :
    ([sampleSolarZone] ≠ ([] : List Zone))
  ∧ ([((0 : ℚ), (0 : ℚ))].length = [sampleSolarZone].length)
  ∧ (∀ v : ℕ, 0 ≤ (fun _ : ℕ => (3 : ℚ) / 4) v ∧ (fun _ : ℕ => (3 : ℚ) / 4) v < 1)
  ∧ (∀ z ∈ [sampleSolarZone], (zoneConfigs z.type).isSome)
  ∧ (∃ res : OptResult,
      optimizeLayout [sampleSolarZone] [(0, 0)] (fun _ : ℕ => (3 : ℚ) / 4) copenhagenClimate 20 15
        = some res
      ∧ res.alerted = some (calculateLayoutScore [sampleSolarZone] copenhagenClimate 20 15)
      ∧ res.zones.length = [sampleSolarZone].length
      ∧ res.store.length = [sampleSolarZone].length
      ∧ (∀ j, j < [((0 : ℚ), (0 : ℚ))].length →
          res.store.getD j (0, 0) =
            (([((0 : ℚ), (0 : ℚ))].getD j (0, 0)).1
                + ∑ i ∈ Finset.range 50,
                    ((fun _ : ℕ => (3 : ℚ) / 4) (i * (2 * [((0 : ℚ), (0 : ℚ))].length) + 2 * j) - 0.5) * 4,
             ([((0 : ℚ), (0 : ℚ))].getD j (0, 0)).2
                + ∑ i ∈ Finset.range 50,
                    ((fun _ : ℕ => (3 : ℚ) / 4) (i * (2 * [((0 : ℚ), (0 : ℚ))].length) + 2 * j + 1) - 0.5) * 4))
      ∧ (∀ v : ℕ, -2 ≤ ((fun _ : ℕ => (3 : ℚ) / 4) v - 0.5) * 4
          ∧ ((fun _ : ℕ => (3 : ℚ) / 4) v - 0.5) * 4 < 2)) :=
  ⟨by simp, rfl, fun v => by norm_num,
   by intro z hz; simp at hz; subst hz; rfl,
   C4_optimizer_behavior [sampleSolarZone] [(0, 0)] (fun _ : ℕ => (3 : ℚ) / 4)
     copenhagenClimate 20 15 (by simp) rfl (fun v => by norm_num)
     (by intro z hz; simp at hz; subst hz; rfl)⟩

/-! ### C10 machinery: vector norms and the normal accumulation -/

namespace Vec3

lemma length_nonneg (v : Vec3) : 0 ≤ length v := Real.sqrt_nonneg _

lemma length_eq_zero_iff (v : Vec3) : length v = 0 ↔ v = zero := by
  unfold length
  rw [Real.sqrt_eq_zero (by positivity)]
  constructor
  · intro h
    have hx : v.x = 0 := by nlinarith [sq_nonneg v.x, sq_nonneg v.y, sq_nonneg v.z]
    have hy : v.y = 0 := by nlinarith [sq_nonneg v.x, sq_nonneg v.y, sq_nonneg v.z]
    have hz : v.z = 0 := by nlinarith [sq_nonneg v.x, sq_nonneg v.y, sq_nonneg v.z]
    ext <;> simp [hx, hy, hz, zero]
  · rintro rfl
    simp [zero]

lemma length_smul (c : ℝ) (v : Vec3) : length (smul c v) = |c| * length v := by
  unfold length smul
  rw [show (c * v.x) ^ 2 + (c * v.y) ^ 2 + (c * v.z) ^ 2
      = c ^ 2 * (v.x ^ 2 + v.y ^ 2 + v.z ^ 2) by ring,
    Real.sqrt_mul (sq_nonneg c), Real.sqrt_sq_eq_abs]

lemma length_normalize (v : Vec3) (h : v ≠ zero) : length (normalize v) = 1 := by
  have hl : length v ≠ 0 := fun he => h ((length_eq_zero_iff v).mp he)
  have hpos : 0 < length v := lt_of_le_of_ne (length_nonneg v) (Ne.symm hl)
  unfold normalize
  rw [if_neg hl, length_smul]
  rw [abs_of_pos (by positivity)]
  field_simp

lemma normalize_z_zero (v : Vec3) (h : v.z = 0) : (normalize v).z = 0 := by
  unfold normalize
  split_ifs
  · exact h
  · simp [smul, h]

lemma normalize_zero : normalize zero = zero := by
  unfold normalize
  rw [if_pos]
  rw [length_eq_zero_iff]

lemma ne_zero_of_z (v : Vec3) (h : v.z ≠ 0) : v ≠ zero := by
  intro he
  rw [he] at h
  simp [zero] at h

lemma ne_zero_of_y (v : Vec3) (h : v.y ≠ 0) : v ≠ zero := by
  intro he
  rw [he] at h
  simp [zero] at h

lemma normalize_zneg (c : ℝ) (hc : 0 < c) : normalize ⟨0, 0, -c⟩ = ⟨0, 0, -1⟩ := by
  have hl : length ⟨0, 0, -c⟩ = c := by
    unfold length
    rw [show (0 : ℝ) ^ 2 + 0 ^ 2 + (-c) ^ 2 = c ^ 2 by ring, Real.sqrt_sq hc.le]
  unfold normalize
  rw [hl, if_neg hc.ne']
  unfold smul
  ext <;> dsimp <;> field_simp

lemma normalize_zpos (c : ℝ) (hc : 0 < c) : normalize ⟨0, 0, c⟩ = ⟨0, 0, 1⟩ := by
  have hl : length ⟨0, 0, c⟩ = c := by
    unfold length
    rw [show (0 : ℝ) ^ 2 + 0 ^ 2 + c ^ 2 = c ^ 2 by ring, Real.sqrt_sq hc.le]
  unfold normalize
  rw [hl, if_neg hc.ne']
  unfold smul
  ext <;> dsimp <;> field_simp

lemma normalize_yneg (c : ℝ) (hc : 0 < c) : normalize ⟨0, -c, 0⟩ = ⟨0, -1, 0⟩ := by
  have hl : length ⟨0, -c, 0⟩ = c := by
    unfold length
    rw [show (0 : ℝ) ^ 2 + (-c) ^ 2 + 0 ^ 2 = c ^ 2 by ring, Real.sqrt_sq hc.le]
  unfold normalize
  rw [hl, if_neg hc.ne']
  unfold smul
  ext <;> dsimp <;> field_simp

lemma normalize_ypos (c : ℝ) (hc : 0 < c) : normalize ⟨0, c, 0⟩ = ⟨0, 1, 0⟩ := by
  have hl : length ⟨0, c, 0⟩ = c := by
    unfold length
    rw [show (0 : ℝ) ^ 2 + c ^ 2 + 0 ^ 2 = c ^ 2 by ring, Real.sqrt_sq hc.le]
  unfold normalize
  rw [hl, if_neg hc.ne']
  unfold smul
  ext <;> dsimp <;> field_simp

end Vec3

lemma getD_set_vec (l : List Vec3) (i j : ℕ) (v : Vec3) (hj : j < l.length) :
    (l.set i v).getD j Vec3.zero = if i = j then v else l.getD j Vec3.zero := by
  rw [List.getD_eq_getElem?_getD, List.getElem?_set]
  by_cases h : i = j <;> simp [h, List.getD_eq_getElem?_getD, hj]

lemma getD_set_nat (l : List ℕ) (i j : ℕ) (v : ℕ) (hj : j < l.length) :
    (l.set i v).getD j 0 = if i = j then v else l.getD j 0 := by
  rw [List.getD_eq_getElem?_getD, List.getElem?_set]
  by_cases h : i = j <;> simp [h, List.getD_eq_getElem?_getD, hj]

lemma getD_addAt (l : List Vec3) (i j : ℕ) (v : Vec3) (hj : j < l.length) :
    (addAt l i v).getD j Vec3.zero
      = if i = j then Vec3.add (l.getD j Vec3.zero) v else l.getD j Vec3.zero := by
  unfold addAt
  rw [getD_set_vec l i j _ hj]
  by_cases h : i = j <;> simp [h]

lemma getD_bumpAt (l : List ℕ) (i j : ℕ) (hj : j < l.length) :
    (bumpAt l i).getD j 0 = if i = j then l.getD j 0 + 1 else l.getD j 0 := by
  unfold bumpAt
  rw [getD_set_nat l i j _ hj]
  by_cases h : i = j <;> simp [h]

lemma addAt_length (l : List Vec3) (i : ℕ) (v : Vec3) : (addAt l i v).length = l.length := by
  unfold addAt
  exact List.length_set l i _

lemma bumpAt_length (l : List ℕ) (i : ℕ) : (bumpAt l i).length = l.length := by
  unfold bumpAt
  exact List.length_set l i _

lemma Vec3.add_zero_right (v : Vec3) : Vec3.add v Vec3.zero = v := by
  ext <;> simp [Vec3.add, Vec3.zero]

lemma Vec3.add_zero_left (v : Vec3) : Vec3.add Vec3.zero v = v := by
  ext <;> simp [Vec3.add, Vec3.zero]

lemma addAt3_getD (a : List Vec3) (t : ℕ × ℕ × ℕ) (n : Vec3) (j : ℕ) (hj : j < a.length) :
    (addAt (addAt (addAt a t.1 n) t.2.1 n) t.2.2 n).getD j Vec3.zero
      = Vec3.add (a.getD j Vec3.zero) (Vec3.smul (occ j t : ℝ) n) := by
  have h1 : (addAt a t.1 n).length = a.length := addAt_length _ _ _
  have h2 : (addAt (addAt a t.1 n) t.2.1 n).length = a.length := by
    rw [addAt_length, h1]
  rw [getD_addAt _ _ _ _ (by rw [h2]; exact hj),
      getD_addAt _ _ _ _ (by rw [h1]; exact hj),
      getD_addAt _ _ _ _ hj]
  by_cases e1 : t.1 = j <;> by_cases e2 : t.2.1 = j <;> by_cases e3 : t.2.2 = j <;>
    simp only [e1, e2, e3, if_pos, if_neg, occ, if_true, if_false] <;>
    simp [occ, e1, e2, e3] <;>
    (ext <;> simp [Vec3.add, Vec3.smul] <;> push_cast <;> ring)

lemma bumpAt3_getD (c : List ℕ) (t : ℕ × ℕ × ℕ) (j : ℕ) (hj : j < c.length) :
    (bumpAt (bumpAt (bumpAt c t.1) t.2.1) t.2.2).getD j 0 = c.getD j 0 + occ j t := by
  have h1 : (bumpAt c t.1).length = c.length := bumpAt_length _ _
  have h2 : (bumpAt (bumpAt c t.1) t.2.1).length = c.length := by
    rw [bumpAt_length, h1]
  rw [getD_bumpAt _ _ _ (by rw [h2]; exact hj),
      getD_bumpAt _ _ _ (by rw [h1]; exact hj),
      getD_bumpAt _ _ _ hj]
  by_cases e1 : t.1 = j <;> by_cases e2 : t.2.1 = j <;> by_cases e3 : t.2.2 = j <;>
    simp [occ, e1, e2, e3] <;> omega

lemma accumFold (vs : List Vec3) : ∀ (ts : List (ℕ × ℕ × ℕ)) (a : List Vec3) (c : List ℕ),
    (ts.foldl (accumStep vs) (a, c)).1.length = a.length
  ∧ (ts.foldl (accumStep vs) (a, c)).2.length = c.length
  ∧ ∀ j, j < a.length → j < c.length →
      ((ts.foldl (accumStep vs) (a, c)).1.getD j Vec3.zero
          = Vec3.add (a.getD j Vec3.zero) (sumContrib vs j ts))
      ∧ ((ts.foldl (accumStep vs) (a, c)).2.getD j 0 = c.getD j 0 + countContrib j ts) := by
  intro ts
  induction ts with
  | nil =>
      intro a c
      refine ⟨rfl, rfl, fun j hja hjc => ⟨?_, ?_⟩⟩ <;>
        simp [sumContrib, countContrib, Vec3.add_zero_right]
  | cons t ts ih =>
      intro a c
      simp only [List.foldl_cons]
      have ha1 : (accumStep vs (a, c) t).1.length = a.length := by
        simp only [accumStep]
        rw [addAt_length, addAt_length, addAt_length]
      have hc1 : (accumStep vs (a, c) t).2.length = c.length := by
        simp only [accumStep]
        rw [bumpAt_length, bumpAt_length, bumpAt_length]
      obtain ⟨hl1, hl2, hg⟩ := ih (accumStep vs (a, c) t).1 (accumStep vs (a, c) t).2
      refine ⟨by rw [hl1, ha1], by rw [hl2, hc1], fun j hja hjc => ?_⟩
      obtain ⟨hgv, hgc⟩ := hg j (by rw [ha1]; exact hja) (by rw [hc1]; exact hjc)
      constructor
      · rw [hgv]
        have : (accumStep vs (a, c) t).1.getD j Vec3.zero
            = Vec3.add (a.getD j Vec3.zero) (Vec3.smul (occ j t : ℝ) (faceNormal vs t)) := by
          simp only [accumStep]
          exact addAt3_getD a t _ j hja
        rw [this]
        show Vec3.add (Vec3.add _ _) _ = Vec3.add _ (sumContrib vs j (t :: ts))
        rw [show sumContrib vs j (t :: ts)
            = Vec3.add (Vec3.smul (occ j t : ℝ) (faceNormal vs t)) (sumContrib vs j ts) from rfl]
        ext <;> simp [Vec3.add] <;> ring
      · rw [hgc]
        have : (accumStep vs (a, c) t).2.getD j 0 = c.getD j 0 + occ j t := by
          simp only [accumStep]
          exact bumpAt3_getD c t j hjc
        rw [this]
        show _ = c.getD j 0 + countContrib j (t :: ts)
        rw [show countContrib j (t :: ts) = occ j t + countContrib j ts from rfl]
        omega

lemma getD_map_range (n : ℕ) (f : ℕ → Vec3) (i : ℕ) (h : i < n) :
    ((List.range n).map f).getD i Vec3.zero = f i := by
  rw [List.getD_eq_getElem?_getD, List.getElem?_map, List.getElem?_range h]
  rfl

lemma getD_replicate_vec (n i : ℕ) (h : i < n) :
    (List.replicate n Vec3.zero).getD i Vec3.zero = Vec3.zero := by
  rw [List.getD_eq_getElem?_getD, List.getElem?_replicate]
  simp [h]

lemma getD_replicate_nat (n i : ℕ) (h : i < n) :
    (List.replicate n (0 : ℕ)).getD i 0 = 0 := by
  rw [List.getD_eq_getElem?_getD, List.getElem?_replicate]
  simp [h]

/-- Closed form of one vertex entry of `calculateFaceNormals`. -/
lemma calculateFaceNormals_getD (vs : List Vec3) (faces : List ℕ) (i : ℕ) (hi : i < vs.length) :
    (calculateFaceNormals vs faces).getD i Vec3.zero =
      if 0 < countContrib i (faceTriples faces)
      then Vec3.normalize (Vec3.smul (1 / (countContrib i (faceTriples faces) : ℝ))
             (sumContrib vs i (faceTriples faces)))
      else sumContrib vs i (faceTriples faces) := by
  unfold calculateFaceNormals accumNormals
  rw [getD_map_range _ _ _ hi]
  obtain ⟨hl1, hl2, hg⟩ := accumFold vs (faceTriples faces)
    (List.replicate vs.length Vec3.zero) (List.replicate vs.length 0)
  obtain ⟨hgv, hgc⟩ := hg i (by simpa using hi) (by simpa using hi)
  simp only [hgv, hgc, getD_replicate_vec _ _ hi, getD_replicate_nat _ _ hi,
    Vec3.add_zero_left, Nat.zero_add]

lemma faceTriples_ridge : faceTriples ridgeFaces = gableTriples := rfl

lemma faceTriples_flat : faceTriples flatFaces = [(0, 1, 2), (0, 2, 3)] := rfl

/-- A vertex touched by at least one face, whose accumulated normal is
nonzero, gets a unit normal. -/
lemma vertex_unit (vs : List Vec3) (faces : List ℕ) (i : ℕ) (hi : i < vs.length)
    (hcnt : 0 < countContrib i (faceTriples faces))
    (hnz : sumContrib vs i (faceTriples faces) ≠ Vec3.zero) :
    Vec3.length ((calculateFaceNormals vs faces).getD i Vec3.zero) = 1 := by
  rw [calculateFaceNormals_getD vs faces i hi, if_pos hcnt]
  apply Vec3.length_normalize
  intro he
  apply hnz
  have hc : (1 / (countContrib i (faceTriples faces) : ℝ)) ≠ 0 := by
    have hcast : (0 : ℝ) < (countContrib i (faceTriples faces) : ℝ) := by exact_mod_cast hcnt
    positivity
  have hx := congrArg Vec3.x he
  have hy := congrArg Vec3.y he
  have hz := congrArg Vec3.z he
  simp only [Vec3.smul, Vec3.zero] at hx hy hz
  ext
  · exact (mul_eq_zero.mp hx).resolve_left hc
  · exact (mul_eq_zero.mp hy).resolve_left hc
  · exact (mul_eq_zero.mp hz).resolve_left hc

/-- All six vertex normals of the gable/hip vertex layout are unit vectors
whenever the half extents and the ridge height are positive. -/
lemma ridge_normals_unit (hw hd rh : ℝ) (hhw : 0 < hw) (hhd : 0 < hd) (hrh : 0 < rh) :
    ∀ i ∈ ridgeFaces,
      Vec3.length ((calculateFaceNormals (ridgeVerts hw hd rh) ridgeFaces).getD i Vec3.zero)
        = 1 := by
  have hf1 : faceNormal (ridgeVerts hw hd rh) (0, 4, 1) = ⟨0, 0, -1⟩ := by
    show Vec3.normalize (Vec3.cross (Vec3.sub ⟨0, rh, -hd⟩ ⟨-hw, 0, -hd⟩)
      (Vec3.sub ⟨hw, 0, -hd⟩ ⟨-hw, 0, -hd⟩)) = ⟨0, 0, -1⟩
    rw [show Vec3.cross (Vec3.sub ⟨0, rh, -hd⟩ ⟨-hw, 0, -hd⟩)
          (Vec3.sub ⟨hw, 0, -hd⟩ ⟨-hw, 0, -hd⟩) = ⟨0, 0, -(2 * hw * rh)⟩ from by
        ext <;> simp [Vec3.cross, Vec3.sub] <;> ring]
    exact Vec3.normalize_zneg _ (by positivity)
  have hf2 : faceNormal (ridgeVerts hw hd rh) (2, 5, 3) = ⟨0, 0, 1⟩ := by
    show Vec3.normalize (Vec3.cross (Vec3.sub ⟨0, rh, hd⟩ ⟨hw, 0, hd⟩)
      (Vec3.sub ⟨-hw, 0, hd⟩ ⟨hw, 0, hd⟩)) = ⟨0, 0, 1⟩
    rw [show Vec3.cross (Vec3.sub ⟨0, rh, hd⟩ ⟨hw, 0, hd⟩)
          (Vec3.sub ⟨-hw, 0, hd⟩ ⟨hw, 0, hd⟩) = ⟨0, 0, 2 * hw * rh⟩ from by
        ext <;> simp [Vec3.cross, Vec3.sub] <;> ring]
    exact Vec3.normalize_zpos _ (by positivity)
  have hf3 : (faceNormal (ridgeVerts hw hd rh) (0, 3, 4)).z = 0 := by
    show (Vec3.normalize (Vec3.cross (Vec3.sub ⟨-hw, 0, hd⟩ ⟨-hw, 0, -hd⟩)
      (Vec3.sub ⟨0, rh, -hd⟩ ⟨-hw, 0, -hd⟩))).z = 0
    apply Vec3.normalize_z_zero
    simp [Vec3.cross, Vec3.sub]
    try ring
  have hf4 : (faceNormal (ridgeVerts hw hd rh) (3, 5, 4)).z = 0 := by
    show (Vec3.normalize (Vec3.cross (Vec3.sub ⟨0, rh, hd⟩ ⟨-hw, 0, hd⟩)
      (Vec3.sub ⟨0, rh, -hd⟩ ⟨-hw, 0, hd⟩))).z = 0
    apply Vec3.normalize_z_zero
    simp [Vec3.cross, Vec3.sub]
    try ring
  have hf5 : (faceNormal (ridgeVerts hw hd rh) (1, 4, 2)).z = 0 := by
    show (Vec3.normalize (Vec3.cross (Vec3.sub ⟨0, rh, -hd⟩ ⟨hw, 0, -hd⟩)
      (Vec3.sub ⟨hw, 0, hd⟩ ⟨hw, 0, -hd⟩))).z = 0
    apply Vec3.normalize_z_zero
    simp [Vec3.cross, Vec3.sub]
    try ring
  have hf6 : (faceNormal (ridgeVerts hw hd rh) (4, 5, 2)).z = 0 := by
    show (Vec3.normalize (Vec3.cross (Vec3.sub ⟨0, rh, hd⟩ ⟨0, rh, -hd⟩)
      (Vec3.sub ⟨hw, 0, hd⟩ ⟨0, rh, -hd⟩))).z = 0
    apply Vec3.normalize_z_zero
    simp [Vec3.cross, Vec3.sub]
    try ring
  have hf7 : (faceNormal (ridgeVerts hw hd rh) (0, 1, 2)).z = 0 := by
    show (Vec3.normalize (Vec3.cross (Vec3.sub ⟨hw, 0, -hd⟩ ⟨-hw, 0, -hd⟩)
      (Vec3.sub ⟨hw, 0, hd⟩ ⟨-hw, 0, -hd⟩))).z = 0
    apply Vec3.normalize_z_zero
    simp [Vec3.cross, Vec3.sub]
  have hf8 : (faceNormal (ridgeVerts hw hd rh) (0, 2, 3)).z = 0 := by
    show (Vec3.normalize (Vec3.cross (Vec3.sub ⟨hw, 0, hd⟩ ⟨-hw, 0, -hd⟩)
      (Vec3.sub ⟨-hw, 0, hd⟩ ⟨-hw, 0, -hd⟩))).z = 0
    apply Vec3.normalize_z_zero
    simp [Vec3.cross, Vec3.sub]
  have hz1 : (faceNormal (ridgeVerts hw hd rh) (0, 4, 1)).z = -1 := by rw [hf1]
  have hz2 : (faceNormal (ridgeVerts hw hd rh) (2, 5, 3)).z = 1 := by rw [hf2]
  intro i hi
  have h6 : i < 6 := by
    have hall : ∀ x ∈ ridgeFaces, x < 6 := by decide
    exact hall i hi
  have hvs : i < (ridgeVerts hw hd rh).length := h6
  interval_cases i <;>
    refine vertex_unit _ _ _ hvs (by rw [faceTriples_ridge]; decide)
      (Vec3.ne_zero_of_z _ ?_) <;>
    · rw [faceTriples_ridge]
      simp [sumContrib, occ, Vec3.add, Vec3.smul, Vec3.zero, hz1, hz2, hf3, hf4, hf5, hf6,
        hf7, hf8]

/-- All four vertex normals of the flat roof are unit vectors for positive
half extents. -/
lemma flat_normals_unit (hw hd : ℝ) (hhw : 0 < hw) (hhd : 0 < hd) :
    ∀ i ∈ flatFaces,
      Vec3.length ((calculateFaceNormals (baseCorners hw hd) flatFaces).getD i Vec3.zero)
        = 1 := by
  have hf7 : (faceNormal (baseCorners hw hd) (0, 1, 2)).y = -1 := by
    show (Vec3.normalize (Vec3.cross (Vec3.sub ⟨hw, 0, -hd⟩ ⟨-hw, 0, -hd⟩)
      (Vec3.sub ⟨hw, 0, hd⟩ ⟨-hw, 0, -hd⟩))).y = -1
    rw [show Vec3.cross (Vec3.sub ⟨hw, 0, -hd⟩ ⟨-hw, 0, -hd⟩)
          (Vec3.sub ⟨hw, 0, hd⟩ ⟨-hw, 0, -hd⟩) = ⟨0, -(4 * hw * hd), 0⟩ from by
        ext <;> simp [Vec3.cross, Vec3.sub] <;> ring]
    rw [Vec3.normalize_yneg _ (by positivity)]
  have hf8 : (faceNormal (baseCorners hw hd) (0, 2, 3)).y = -1 := by
    show (Vec3.normalize (Vec3.cross (Vec3.sub ⟨hw, 0, hd⟩ ⟨-hw, 0, -hd⟩)
      (Vec3.sub ⟨-hw, 0, hd⟩ ⟨-hw, 0, -hd⟩))).y = -1
    rw [show Vec3.cross (Vec3.sub ⟨hw, 0, hd⟩ ⟨-hw, 0, -hd⟩)
          (Vec3.sub ⟨-hw, 0, hd⟩ ⟨-hw, 0, -hd⟩) = ⟨0, -(4 * hw * hd), 0⟩ from by
        ext <;> simp [Vec3.cross, Vec3.sub] <;> ring]
    rw [Vec3.normalize_yneg _ (by positivity)]
  intro i hi
  have h4 : i < 4 := by
    have hall : ∀ x ∈ flatFaces, x < 4 := by decide
    exact hall i hi
  have hvs : i < (baseCorners hw hd).length := h4
  interval_cases i <;>
    refine vertex_unit _ _ _ hvs (by rw [faceTriples_flat]; decide)
      (Vec3.ne_zero_of_y _ ?_) <;>
    · rw [faceTriples_flat]
      simp [sumContrib, occ, Vec3.add, Vec3.smul, Vec3.zero, hf7, hf8]

/-- C10 (amended): for every parameter record with positive width and depth,
nonnegative overhang, and either the flat roof type or a pitch strictly
between 0 and 90 degrees, the generated geometry satisfies: every face index
is below the vertex count, the face list length is a multiple of 3, and
every vertex touched by a face carries a unit normal.  (At pitch exactly 0
the claim fails: see the counterexample, where a touched gable vertex gets
the zero normal because its incident face normals cancel.) -/
theorem C10_geometry_invariants (params : RoofParams)
    (hw : 0 < params.width) (hd : 0 < params.depth) (ho : 0 ≤ params.overhang)
    (hp : params.type = "flat" ∨ (0 < params.pitch ∧ params.pitch < 90)) :
    (∀ i ∈ (generateRoofGeometry params).faces, i < (generateRoofGeometry params).vertices.length)
  ∧ (generateRoofGeometry params).faces.length % 3 = 0
  ∧ (∀ i ∈ (generateRoofGeometry params).faces,
      Vec3.length ((generateRoofGeometry params).normals.getD i Vec3.zero) = 1) := by
  have hhw : 0 < params.width / 2 + params.overhang := by linarith
  have hhd : 0 < params.depth / 2 + params.overhang := by linarith
  by_cases hf : params.type = "flat"
  · have hgeo : generateRoofGeometry params = generateFlatRoof params := by
      simp [generateRoofGeometry, hf]
    rw [hgeo]
    refine ⟨?_, by simp [generateFlatRoof, flatFaces], ?_⟩
    · intro i hi
      have hall : ∀ x ∈ flatFaces, x < 4 := by decide
      exact hall i hi
    · exact flat_normals_unit _ _ hhw hhd
  · have hpitch : 0 < params.pitch ∧ params.pitch < 90 := hp.resolve_left hf
    have hpi := Real.pi_pos
    have htan : 0 < Real.tan (params.pitch * Real.pi / 180) := by
      apply Real.tan_pos_of_pos_of_lt_pi_div_two
      · have h1 := hpitch.1
        positivity
      · rw [show Real.pi / 2 = 90 * Real.pi / 180 by ring]
        have hlt := hpitch.2
        gcongr
    have hunit : ∀ (rh : ℝ), 0 < rh → ∀ i ∈ ridgeFaces,
        Vec3.length ((calculateFaceNormals
          (ridgeVerts (params.width / 2 + params.overhang)
            (params.depth / 2 + params.overhang) rh) ridgeFaces).getD i Vec3.zero) = 1 :=
      fun rh hrh => ridge_normals_unit _ _ _ hhw hhd hrh
    have hidx : ∀ i ∈ ridgeFaces, i < 6 := by decide
    by_cases hg : params.type = "gable"
    · have hgeo : generateRoofGeometry params = generateGableRoof params := by
        simp [generateRoofGeometry, hf, hg]
      rw [hgeo]
      exact ⟨hidx, by simp [generateGableRoof, ridgeFaces], hunit _ (by positivity)⟩
    · by_cases hh : params.type = "hip"
      · have hgeo : generateRoofGeometry params = generateHipRoof params := by
          simp [generateRoofGeometry, hf, hg, hh]
        rw [hgeo]
        have hmin : 0 < min params.width params.depth := lt_min hw hd
        exact ⟨hidx, by simp [generateHipRoof, ridgeFaces], hunit _ (by positivity)⟩
      · have hgeo : generateRoofGeometry params = generateGableRoof params := by
          simp [generateRoofGeometry, hf, hg, hh]
        rw [hgeo]
        exact ⟨hidx, by simp [generateGableRoof, ridgeFaces], hunit _ (by positivity)⟩

/-- Witness for C10: the invariants applied to a 45-degree gable roof. -/
theorem C10_geometry_invariants_witness :
    ((0 : ℝ) < steepGable.width ∧ (0 : ℝ) < steepGable.depth ∧ (0 : ℝ) ≤ steepGable.overhang
      ∧ (steepGable.type = "flat" ∨ (0 < steepGable.pitch ∧ steepGable.pitch < 90)))
  ∧ ((∀ i ∈ (generateRoofGeometry steepGable).faces,
        i < (generateRoofGeometry steepGable).vertices.length)
    ∧ (generateRoofGeometry steepGable).faces.length % 3 = 0
    ∧ (∀ i ∈ (generateRoofGeometry steepGable).faces,
        Vec3.length ((generateRoofGeometry steepGable).normals.getD i Vec3.zero) = 1)) :=
  ⟨⟨by norm_num [steepGable], by norm_num [steepGable], by norm_num [steepGable],
      Or.inr ⟨by norm_num [steepGable], by norm_num [steepGable]⟩⟩,
   C10_geometry_invariants steepGable (by norm_num [steepGable]) (by norm_num [steepGable])
     (by norm_num [steepGable]) (Or.inr ⟨by norm_num [steepGable], by norm_num [steepGable]⟩)⟩

lemma flatPitchGable_verts : (generateGableRoof flatPitchGable).vertices = ridgeVerts 1 1 0 := by
  show ridgeVerts ((2 : ℝ) / 2 + 0) ((2 : ℝ) / 2 + 0)
    ((2 : ℝ) / 2 * Real.tan ((0 : ℝ) * Real.pi / 180)) = ridgeVerts 1 1 0
  rw [show ((0 : ℝ) * Real.pi / 180) = 0 by ring, Real.tan_zero]
  norm_num

lemma flatPitchGable_normals :
    (generateGableRoof flatPitchGable).normals
      = calculateFaceNormals (ridgeVerts 1 1 0) ridgeFaces := by
  show calculateFaceNormals (ridgeVerts ((2 : ℝ) / 2 + 0) ((2 : ℝ) / 2 + 0)
    ((2 : ℝ) / 2 * Real.tan ((0 : ℝ) * Real.pi / 180))) ridgeFaces = _
  rw [show ((0 : ℝ) * Real.pi / 180) = 0 by ring, Real.tan_zero]
  norm_num

/-- C10 counterexample: at pitch 0 — a valid parameter value — vertex 1 of
the gable roof is touched by three faces, yet its incident face normals
cancel (the degenerate front gable contributes the zero vector, the flat
right slope points up, the bottom face points down), so the stored normal is
the zero vector, not a unit vector. -/
theorem C10_counterexample :
    ((0 : ℝ) < flatPitchGable.width ∧ (0 : ℝ) < flatPitchGable.depth
      ∧ (0 : ℝ) ≤ flatPitchGable.pitch ∧ flatPitchGable.pitch < 90)
  ∧ (1 : ℕ) ∈ (generateRoofGeometry flatPitchGable).faces
  ∧ (generateRoofGeometry flatPitchGable).normals.getD 1 Vec3.zero = Vec3.zero
  ∧ Vec3.length ((generateRoofGeometry flatPitchGable).normals.getD 1 Vec3.zero) ≠ 1 := by
  have hn1 : faceNormal (ridgeVerts 1 1 0) (0, 4, 1) = Vec3.zero := by
    show Vec3.normalize (Vec3.cross (Vec3.sub ⟨0, 0, -1⟩ ⟨-1, 0, -1⟩)
      (Vec3.sub ⟨1, 0, -1⟩ ⟨-1, 0, -1⟩)) = Vec3.zero
    rw [show Vec3.cross (Vec3.sub ⟨0, 0, -1⟩ ⟨-1, 0, -1⟩)
          (Vec3.sub ⟨1, 0, -1⟩ ⟨-1, 0, -1⟩) = Vec3.zero from by
        ext <;> simp [Vec3.cross, Vec3.sub, Vec3.zero]]
    exact Vec3.normalize_zero
  have hn5 : faceNormal (ridgeVerts 1 1 0) (1, 4, 2) = ⟨0, 1, 0⟩ := by
    show Vec3.normalize (Vec3.cross (Vec3.sub ⟨0, 0, -1⟩ ⟨1, 0, -1⟩)
      (Vec3.sub ⟨1, 0, 1⟩ ⟨1, 0, -1⟩)) = ⟨0, 1, 0⟩
    rw [show Vec3.cross (Vec3.sub ⟨0, 0, -1⟩ ⟨1, 0, -1⟩)
          (Vec3.sub ⟨1, 0, 1⟩ ⟨1, 0, -1⟩) = ⟨0, 2, 0⟩ from by
        ext <;> simp [Vec3.cross, Vec3.sub] <;> ring]
    exact Vec3.normalize_ypos 2 (by norm_num)
  have hn7 : faceNormal (ridgeVerts 1 1 0) (0, 1, 2) = ⟨0, -1, 0⟩ := by
    show Vec3.normalize (Vec3.cross (Vec3.sub ⟨1, 0, -1⟩ ⟨-1, 0, -1⟩)
      (Vec3.sub ⟨1, 0, 1⟩ ⟨-1, 0, -1⟩)) = ⟨0, -1, 0⟩
    rw [show Vec3.cross (Vec3.sub ⟨1, 0, -1⟩ ⟨-1, 0, -1⟩)
          (Vec3.sub ⟨1, 0, 1⟩ ⟨-1, 0, -1⟩) = ⟨0, -(4 : ℝ), 0⟩ from by
        ext <;> simp [Vec3.cross, Vec3.sub] <;> ring]
    exact Vec3.normalize_yneg 4 (by norm_num)
  have hsum : sumContrib (ridgeVerts 1 1 0) 1 gableTriples = Vec3.zero := by
    simp [sumContrib, occ, hn1, hn5, hn7]
    ext <;> simp [Vec3.add, Vec3.smul, Vec3.zero] <;> ring
  have hgeo : generateRoofGeometry flatPitchGable = generateGableRoof flatPitchGable := rfl
  have hzero : (generateRoofGeometry flatPitchGable).normals.getD 1 Vec3.zero = Vec3.zero := by
    rw [hgeo, flatPitchGable_normals,
      calculateFaceNormals_getD _ _ 1 (by rw [show (ridgeVerts 1 1 0).length = 6 from rfl]; omega),
      faceTriples_ridge]
    rw [if_pos (by decide), hsum]
    rw [show Vec3.smul (1 / (countContrib 1 gableTriples : ℝ)) Vec3.zero = Vec3.zero from by
      ext <;> simp [Vec3.smul, Vec3.zero]]
    exact Vec3.normalize_zero
  refine ⟨⟨by norm_num [flatPitchGable], by norm_num [flatPitchGable],
      by norm_num [flatPitchGable], by norm_num [flatPitchGable]⟩, ?_, hzero, ?_⟩
  · rw [hgeo]
    show (1 : ℕ) ∈ ridgeFaces
    decide
  · rw [hzero]
    rw [show Vec3.length Vec3.zero = 0 from by
      simp [Vec3.length, Vec3.zero]]
    norm_num

/-! ### C2, C3, C6: concrete geometry shapes -/

/-- C2 counterexample: the claim says the face index list encodes exactly 6
triangles (18 indices); the generator also emits the two bottom-face
triangles, so the list has 24 indices (8 triangles). -/
theorem C2_counterexample :
    (generateRoofGeometry gableExample).faces.length = 24
  ∧ (generateRoofGeometry gableExample).faces.length ≠ 6 * 3 := by
  refine ⟨rfl, ?_⟩
  rw [show (generateRoofGeometry gableExample).faces.length = 24 from rfl]
  norm_num

/-- C2 (amended): on the spec example the gable geometry has exactly the 6
claimed vertices — the 4 base corners at `(±5, 0, ±4)` plus the 2 ridge
points centered in x, spanning the full depth, at height
`tan(30 degrees) * 5` — but its face index list encodes exactly 8 triangles,
not 6: the 2 gable triangles and the 2 slope quads split in 2 triangles each,
as claimed, plus the 2 bottom-face triangles the claim omits. -/
theorem C2_gable_example :
    (generateRoofGeometry gableExample).vertices
      = [⟨-5, 0, -4⟩, ⟨5, 0, -4⟩, ⟨5, 0, 4⟩, ⟨-5, 0, 4⟩,
         ⟨0, Real.tan (30 * Real.pi / 180) * 5, -4⟩,
         ⟨0, Real.tan (30 * Real.pi / 180) * 5, 4⟩]
  ∧ (generateRoofGeometry gableExample).faces
      = [0, 4, 1, 2, 5, 3, 0, 3, 4, 3, 5, 4, 1, 4, 2, 4, 5, 2, 0, 1, 2, 0, 2, 3]
  ∧ (generateRoofGeometry gableExample).vertices.length = 6
  ∧ ((generateRoofGeometry gableExample).vertices.getD 4 Vec3.zero).y
      = Real.tan (30 * Real.pi / 180) * 5
  ∧ ((generateRoofGeometry gableExample).vertices.getD 5 Vec3.zero).y
      = Real.tan (30 * Real.pi / 180) * 5
  ∧ (generateRoofGeometry gableExample).faces.length = 8 * 3 := by
  refine ⟨?_, rfl, rfl, ?_, ?_, rfl⟩
  · show ridgeVerts ((10 : ℝ) / 2 + 0) ((8 : ℝ) / 2 + 0)
      ((10 : ℝ) / 2 * Real.tan ((30 : ℝ) * Real.pi / 180)) = _
    rw [show (10 : ℝ) / 2 + 0 = 5 by norm_num, show (8 : ℝ) / 2 + 0 = 4 by norm_num,
      show (10 : ℝ) / 2 * Real.tan ((30 : ℝ) * Real.pi / 180)
        = Real.tan (30 * Real.pi / 180) * 5 by ring]
    rfl
  all_goals
  · show (10 : ℝ) / 2 * Real.tan ((30 : ℝ) * Real.pi / 180)
      = Real.tan (30 * Real.pi / 180) * 5
    ring

/-- C3 counterexample: for the 4 x 4 hip roof at 45 degrees the generated
peak height is 2 = tan(pitch) * min(width,depth)/2, while the claim predicts
tan(pitch) * min(width,depth)/4 = 1; moreover vertices 4 and 5 are two
distinct ridge points (a ridge line), not a single ridge point. -/
theorem C3_counterexample :
    ((generateRoofGeometry hipExample).vertices.getD 4 Vec3.zero).y = 2
  ∧ Real.tan (45 * Real.pi / 180) * (min (4 : ℝ) 4 / 4) = 1
  ∧ ((2 : ℝ) ≠ 1)
  ∧ (generateRoofGeometry hipExample).vertices.getD 4 Vec3.zero
      ≠ (generateRoofGeometry hipExample).vertices.getD 5 Vec3.zero := by
  have htan : Real.tan ((45 : ℝ) * Real.pi / 180) = 1 := by
    rw [show ((45 : ℝ) * Real.pi / 180) = Real.pi / 4 by ring, Real.tan_pi_div_four]
  refine ⟨?_, ?_, by norm_num, ?_⟩
  · show min (4 : ℝ) 4 / 2 * Real.tan ((45 : ℝ) * Real.pi / 180) = 2
    rw [htan]
    norm_num
  · rw [htan]
    norm_num
  · intro h
    have hz : -((4 : ℝ) / 2 + 0) = (4 : ℝ) / 2 + 0 := congrArg Vec3.z h
    norm_num at hz

/-- C3 (amended): for every hip parameter record the generator produces the
same 6-vertex, 8-triangle topology as the gable roof: a ridge LINE with two
ridge points at the back and front edges, whose height is
`tan(pitch) * min(width, depth) / 2` — not four triangles meeting at a
single point with height `tan(pitch) * min(width, depth) / 4`. -/
theorem C3_hip_geometry (w d pitch o : ℝ) (seed : ℤ ⊕ String) :
    (generateRoofGeometry
        { width := w, depth := d, pitch := pitch, overhang := o, type := "hip",
          seed := seed }).vertices.length = 6
  ∧ (generateRoofGeometry
        { width := w, depth := d, pitch := pitch, overhang := o, type := "hip",
          seed := seed }).faces.length = 24
  ∧ ((generateRoofGeometry
        { width := w, depth := d, pitch := pitch, overhang := o, type := "hip",
          seed := seed }).vertices.getD 4 Vec3.zero).y
      = Real.tan (pitch * Real.pi / 180) * (min w d / 2)
  ∧ ((generateRoofGeometry
        { width := w, depth := d, pitch := pitch, overhang := o, type := "hip",
          seed := seed }).vertices.getD 5 Vec3.zero).y
      = Real.tan (pitch * Real.pi / 180) * (min w d / 2)
  ∧ ((generateRoofGeometry
        { width := w, depth := d, pitch := pitch, overhang := o, type := "hip",
          seed := seed }).vertices.getD 4 Vec3.zero).z = -(d / 2 + o)
  ∧ ((generateRoofGeometry
        { width := w, depth := d, pitch := pitch, overhang := o, type := "hip",
          seed := seed }).vertices.getD 5 Vec3.zero).z = d / 2 + o := by
  refine ⟨rfl, rfl, ?_, ?_, rfl, rfl⟩ <;>
  · show min w d / 2 * Real.tan (pitch * Real.pi / 180)
      = Real.tan (pitch * Real.pi / 180) * (min w d / 2)
    ring

/-- C6 counterexample: the claim says invalid parameters (here width 0) are
rejected with an error; instead the generator returns a full 6-vertex,
8-triangle geometry in which base corners 0 and 1 coincide, i.e. degenerate
zero-area triangles. -/
theorem C6_counterexample :
    (generateRoofGeometry zeroWidthGable).vertices.length = 6
  ∧ (generateRoofGeometry zeroWidthGable).faces.length = 24
  ∧ (generateRoofGeometry zeroWidthGable).vertices.getD 0 Vec3.zero
      = (generateRoofGeometry zeroWidthGable).vertices.getD 1 Vec3.zero := by
  refine ⟨rfl, rfl, ?_⟩
  show (⟨-((0 : ℝ) / 2 + 0), 0, -((8 : ℝ) / 2 + 0)⟩ : Vec3)
    = ⟨(0 : ℝ) / 2 + 0, 0, -((8 : ℝ) / 2 + 0)⟩
  ext <;> norm_num

/-- C6 (amended): the generator performs no parameter validation at all: for
every parameter record — including non-positive dimensions and pitch at or
beyond 90 degrees — it totally returns geometry with the type's fixed
topology (degenerate when the inputs are degenerate) instead of rejecting. -/
theorem C6_no_validation (params : RoofParams) :
    (generateRoofGeometry params).vertices.length = (if params.type = "flat" then 4 else 6)
  ∧ (generateRoofGeometry params).faces.length = (if params.type = "flat" then 6 else 24) := by
  by_cases hf : params.type = "flat"
  · simp [generateRoofGeometry, hf, generateFlatRoof, baseCorners, flatFaces]
  · by_cases hg : params.type = "gable"
    · simp [generateRoofGeometry, hf, hg, generateGableRoof, ridgeVerts, baseCorners, ridgeFaces]
    · by_cases hh : params.type = "hip" <;>
        simp [generateRoofGeometry, hf, hg, hh, generateGableRoof, generateHipRoof, ridgeVerts,
          baseCorners, ridgeFaces]
